import Mathlib

/-!
Verification of the client-to-server operation core of the spaced-backend
repository (`src/client2server.ts`).

The development shallowly embeds the module: the D1/SQLite database is a
record of per-table finite maps (functions from keys to optional rows), each
SQL statement becomes an explicit state transformation, and the conditional
upserts (`onConflictDoUpdate ... setWhere`) become conditional functional
updates.  Machine integers are modelled as `Nat` (no arithmetic in the module
can overflow a 64-bit sequence counter in any scenario considered here, and
SQLite integers are 64-bit; we state everything over unbounded naturals as the
module performs no wrapping arithmetic).  Strings are Lean `String`s; SQLite's
text comparison (byte-wise `memcmp` over UTF-8, which agrees with
codepoint-lexicographic order) is embedded as `strLtb` below.
-/

/-- Lexicographic strict order on lists of characters, as a boolean.
This is the order SQLite's `>` uses on text values (memcmp over UTF-8 agrees
with codepoint-lexicographic comparison, and a strict prefix sorts first). -/
def charListLt : List Char → List Char → Bool
  | _, [] => false
  | [], _ :: _ => true
  | a :: as, b :: bs => a < b || (a = b && charListLt as bs)

/-- SQLite text comparison `a < b`, used by the `setWhere` clauses through
`last_modified_client` comparisons. -/
def strLtb (a b : String) : Bool := charListLt a.data b.data

lemma charListLt_irrefl (l : List Char) : charListLt l l = false := by
  induction l with
  | nil => rfl
  | cons a as ih => simp [charListLt, ih]

lemma charListLt_trans : ∀ {l m n : List Char},
    charListLt l m = true → charListLt m n = true → charListLt l n = true
  | _, [], _, h1, _ => by simp [charListLt] at h1
  | _, _ :: _, [], _, h2 => by simp [charListLt] at h2
  | [], _ :: _, _ :: _, _, _ => rfl
  | a :: as, b :: bs, c :: cs, h1, h2 => by
    simp only [charListLt, Bool.or_eq_true, Bool.and_eq_true, decide_eq_true_iff] at h1 h2 ⊢
    rcases h1 with h1 | ⟨rfl, h1⟩
    · rcases h2 with h2 | ⟨rfl, h2⟩
      · exact Or.inl (lt_trans h1 h2)
      · exact Or.inl h1
    · rcases h2 with h2 | ⟨rfl, h2⟩
      · exact Or.inl h2
      · exact Or.inr ⟨rfl, charListLt_trans h1 h2⟩

lemma charListLt_asymm {l m : List Char} (h : charListLt l m = true) : charListLt m l = false := by
  cases hml : charListLt m l with
  | false => rfl
  | true => exact absurd (charListLt_trans h hml) (by simp [charListLt_irrefl])

lemma charListLt_total_eq : ∀ {l m : List Char},
    charListLt l m = false → charListLt m l = false → l = m
  | [], [], _, _ => rfl
  | [], _ :: _, h1, _ => by simp [charListLt] at h1
  | _ :: _, [], _, h2 => by simp [charListLt] at h2
  | a :: as, b :: bs, h1, h2 => by
    simp only [charListLt, Bool.or_eq_false_iff, Bool.and_eq_false_iff,
      decide_eq_false_iff_not] at h1 h2
    have hab : a = b := le_antisymm (le_of_not_lt h2.1) (le_of_not_lt h1.1)
    subst hab
    rcases h1.2 with h | h
    · exact absurd rfl h
    · rcases h2.2 with h' | h'
      · exact absurd rfl h'
      · rw [charListLt_total_eq h h']

lemma strLtb_irrefl (s : String) : strLtb s s = false := charListLt_irrefl s.data

lemma strLtb_asymm {s t : String} (h : strLtb s t = true) : strLtb t s = false :=
  charListLt_asymm h

lemma strLtb_trans {s t u : String} (h1 : strLtb s t = true) (h2 : strLtb t u = true) :
    strLtb s u = true := charListLt_trans h1 h2

lemma strLtb_total_eq {s t : String} (h1 : strLtb s t = false) (h2 : strLtb t s = false) :
    s = t := by
  cases s with
  | mk ls =>
    cases t with
    | mk lt =>
      have : ls = lt := charListLt_total_eq h1 h2
      rw [this]

/-- The `setWhere` predicate shared by every LWW upsert in `client2server.ts`:
`excluded.last_modified > stored.last_modified OR (excluded.last_modified =
stored.last_modified AND excluded.last_modified_client >
stored.last_modified_client)`.  Arguments are the incoming (excluded) and
stored `(lastModified, lastModifiedClient)` pairs. -/
def lwwWins (incLastModified : Nat) (incClient : String)
    (storedLastModified : Nat) (storedClient : String) : Bool :=
  decide (storedLastModified < incLastModified) ||
    (decide (incLastModified = storedLastModified) && strLtb storedClient incClient)

lemma lwwWins_iff {a c : Nat} {b d : String} :
    lwwWins a b c d = true ↔ (c < a ∨ (c = a ∧ strLtb d b = true)) := by
  simp only [lwwWins, Bool.or_eq_true, Bool.and_eq_true, decide_eq_true_iff]
  constructor
  · rintro (h | ⟨h, h'⟩)
    · exact Or.inl h
    · exact Or.inr ⟨h.symm, h'⟩
  · rintro (h | ⟨h, h'⟩)
    · exact Or.inl h
    · exact Or.inr ⟨h.symm, h'⟩

lemma lwwWins_irrefl (t : Nat) (c : String) : lwwWins t c t c = false := by
  simp [lwwWins, strLtb_irrefl]

lemma lwwWins_trans {t1 t2 t3 : Nat} {c1 c2 c3 : String}
    (h1 : lwwWins t2 c2 t1 c1 = true) (h2 : lwwWins t3 c3 t2 c2 = true) :
    lwwWins t3 c3 t1 c1 = true := by
  rw [lwwWins_iff] at h1 h2 ⊢
  rcases h1 with h1 | ⟨rfl, h1⟩
  · rcases h2 with h2 | ⟨rfl, h2⟩
    · exact Or.inl (lt_trans h1 h2)
    · exact Or.inl h1
  · rcases h2 with h2 | ⟨rfl, h2⟩
    · exact Or.inl h2
    · exact Or.inr ⟨rfl, strLtb_trans h1 h2⟩

lemma lwwWins_asymm {t1 t2 : Nat} {c1 c2 : String}
    (h : lwwWins t2 c2 t1 c1 = true) : lwwWins t1 c1 t2 c2 = false := by
  cases h' : lwwWins t1 c1 t2 c2 with
  | false => rfl
  | true => exact absurd (lwwWins_trans h' h) (by simp [lwwWins_irrefl])

lemma lwwWins_total {t1 t2 : Nat} {c1 c2 : String}
    (h1 : lwwWins t2 c2 t1 c1 = false) (h2 : lwwWins t1 c1 t2 c2 = false) :
    t1 = t2 ∧ c1 = c2 := by
  rw [← Bool.not_eq_true, lwwWins_iff] at h1 h2
  push_neg at h1 h2
  have ht : t1 = t2 := le_antisymm h2.1 h1.1
  subst ht
  refine ⟨rfl, ?_⟩
  have hc1 : strLtb c1 c2 = false := by
    cases hx : strLtb c1 c2 with
    | false => rfl
    | true => exact absurd hx (h1.2 rfl)
  have hc2 : strLtb c2 c1 = false := by
    cases hx : strLtb c2 c1 with
    | false => rfl
    | true => exact absurd hx (h2.2 rfl)
  exact strLtb_total_eq hc1 hc2

/-!
Operation types.  The `Operation` union itself is imported by
`client2server.ts` from `@/operation`.  Modelled from the spec: an operation
is a tagged record with a discriminator from the closed nine-element set, a
client-supplied integer-millisecond `timestamp`, and a kind-specific
`payload`; the enriched `ClientToServer` form (defined in
`client2server.ts`) additionally carries `clientId` and `userId`.  We embed
each enriched operation kind as a flat structure.  Scheduler-owned payload
fields are stored verbatim by the code, so their exact Lean types are
irrelevant; we use `Nat`, `Int`, `Option Nat`, `Bool` and `String` as
appropriate placeholders for the wire-level values.
-/

structure CardOpPayload where
  id : String
  due : Nat
  stability : Int
  difficulty : Int
  elapsed_days : Nat
  scheduled_days : Nat
  reps : Nat
  lapses : Nat
  state : Nat
  last_review : Option Nat
deriving DecidableEq, Repr

structure CardOperation where
  timestamp : Nat
  clientId : String
  userId : String
  payload : CardOpPayload
deriving DecidableEq, Repr

structure ReviewLogOpPayload where
  id : String
  cardId : String
  grade : Nat
  state : Nat
  due : Nat
  stability : Int
  difficulty : Int
  elapsed_days : Nat
  last_elapsed_days : Nat
  scheduled_days : Nat
  review : Nat
  duration : Nat
deriving DecidableEq, Repr

structure ReviewLogOperation where
  timestamp : Nat
  clientId : String
  userId : String
  payload : ReviewLogOpPayload
deriving DecidableEq, Repr

structure ReviewLogDeletedOpPayload where
  reviewLogId : String
  deleted : Bool
deriving DecidableEq, Repr

structure ReviewLogDeletedOperation where
  timestamp : Nat
  clientId : String
  userId : String
  payload : ReviewLogDeletedOpPayload
deriving DecidableEq, Repr

structure CardContentOpPayload where
  cardId : String
  front : String
  back : String
deriving DecidableEq, Repr

structure CardContentOperation where
  timestamp : Nat
  clientId : String
  userId : String
  payload : CardContentOpPayload
deriving DecidableEq, Repr

structure CardDeletedOpPayload where
  cardId : String
  deleted : Bool
deriving DecidableEq, Repr

structure CardDeletedOperation where
  timestamp : Nat
  clientId : String
  userId : String
  payload : CardDeletedOpPayload
deriving DecidableEq, Repr

structure CardBookmarkedOpPayload where
  cardId : String
  bookmarked : Bool
deriving DecidableEq, Repr

structure CardBookmarkedOperation where
  timestamp : Nat
  clientId : String
  userId : String
  payload : CardBookmarkedOpPayload
deriving DecidableEq, Repr

structure CardSuspendedOpPayload where
  cardId : String
  suspended : Bool
deriving DecidableEq, Repr

structure CardSuspendedOperation where
  timestamp : Nat
  clientId : String
  userId : String
  payload : CardSuspendedOpPayload
deriving DecidableEq, Repr

structure DeckOpPayload where
  id : String
  name : String
  description : String
  deleted : Bool
deriving DecidableEq, Repr

structure DeckOperation where
  timestamp : Nat
  clientId : String
  userId : String
  payload : DeckOpPayload
deriving DecidableEq, Repr

structure UpdateDeckCardOpPayload where
  cardId : String
  deckId : String
  clCount : Nat
deriving DecidableEq, Repr

structure UpdateDeckCardOperation where
  timestamp : Nat
  clientId : String
  userId : String
  payload : UpdateDeckCardOpPayload
deriving DecidableEq, Repr

/-- The closed union of enriched operations dispatched by
`handleClientOperation` (spec section 3.1; the TypeScript `Operation` union
from `@/operation`, enriched to `ClientToServer<Operation>`). -/
inductive Operation where
  | card (op : CardOperation)
  | reviewLog (op : ReviewLogOperation)
  | reviewLogDeleted (op : ReviewLogDeletedOperation)
  | cardContent (op : CardContentOperation)
  | cardDeleted (op : CardDeletedOperation)
  | cardBookmarked (op : CardBookmarkedOperation)
  | cardSuspended (op : CardSuspendedOperation)
  | deck (op : DeckOperation)
  | updateDeckCard (op : UpdateDeckCardOperation)
deriving DecidableEq, Repr

/-- The `userId` of the enriched operation (the `op.userId` field that
`handleClientOperation` passes to `reserveSeqNo`). -/
def Operation.userId : Operation → String
  | .card op => op.userId
  | .reviewLog op => op.userId
  | .reviewLogDeleted op => op.userId
  | .cardContent op => op.userId
  | .cardDeleted op => op.userId
  | .cardBookmarked op => op.userId
  | .cardSuspended op => op.userId
  | .deck op => op.userId
  | .updateDeckCard op => op.userId

/-!
Stored rows.  One structure per target table, mirroring the column sets that
`client2server.ts` writes.  The primary-key columns (`cards.id`,
`cardContents.cardId`, ..., `cardDecks.(cardId, deckId)`) are the index of
the table map and are therefore not repeated inside the row structure; every
non-key column written by the module appears as a field.
-/

structure CardRow where
  userId : String
  due : Nat
  stability : Int
  difficulty : Int
  elapsed_days : Nat
  scheduled_days : Nat
  reps : Nat
  lapses : Nat
  state : Nat
  last_review : Option Nat
  lastModified : Nat
  lastModifiedClient : String
  seqNo : Nat
deriving DecidableEq, Repr

structure ReviewLogRow where
  cardId : String
  grade : Nat
  state : Nat
  due : Nat
  stability : Int
  difficulty : Int
  elapsed_days : Nat
  last_elapsed_days : Nat
  scheduled_days : Nat
  review : Nat
  duration : Nat
  createdAt : Nat
  lastModifiedClient : String
  seqNo : Nat
deriving DecidableEq, Repr

structure ReviewLogDeletedRow where
  deleted : Bool
  lastModified : Nat
  lastModifiedClient : String
  seqNo : Nat
deriving DecidableEq, Repr

structure CardContentRow where
  front : String
  back : String
  lastModified : Nat
  lastModifiedClient : String
  seqNo : Nat
deriving DecidableEq, Repr

structure CardDeletedRow where
  deleted : Bool
  lastModified : Nat
  lastModifiedClient : String
  seqNo : Nat
deriving DecidableEq, Repr

structure CardBookmarkedRow where
  bookmarked : Bool
  lastModified : Nat
  lastModifiedClient : String
  seqNo : Nat
deriving DecidableEq, Repr

structure CardSuspendedRow where
  suspended : Bool
  lastModified : Nat
  lastModifiedClient : String
  seqNo : Nat
deriving DecidableEq, Repr

structure DeckRow where
  userId : String
  name : String
  description : String
  deleted : Bool
  lastModified : Nat
  lastModifiedClient : String
  seqNo : Nat
deriving DecidableEq, Repr

structure CardDeckRow where
  clCount : Nat
  lastModified : Nat
  lastModifiedClient : String
  seqNo : Nat
deriving DecidableEq, Repr

/-- The database visible to the module: the `users` table (only its
`nextSeqNo` column is touched by this module) and the nine target tables,
each a map from primary key to optional row. -/
structure DB where
  users : String → Option Nat
  cards : String → Option CardRow
  reviewLogs : String → Option ReviewLogRow
  reviewLogDeleted : String → Option ReviewLogDeletedRow
  cardContents : String → Option CardContentRow
  cardDeleted : String → Option CardDeletedRow
  cardBookmarked : String → Option CardBookmarkedRow
  cardSuspended : String → Option CardSuspendedRow
  decks : String → Option DeckRow
  cardDecks : String × String → Option CardDeckRow

/-- Point update of a table map (the row written by an `INSERT` or the
update arm of an upsert). -/
def setTable {κ ρ : Type} [DecidableEq κ] (t : κ → Option ρ) (k : κ) (v : ρ) :
    κ → Option ρ :=
  fun k' => if k' = k then some v else t k'

lemma setTable_self {κ ρ : Type} [DecidableEq κ] (t : κ → Option ρ) (k : κ) (v : ρ) :
    setTable t k v k = some v := by simp [setTable]

lemma setTable_ne {κ ρ : Type} [DecidableEq κ] (t : κ → Option ρ) (k k' : κ) (v : ρ)
    (h : k' ≠ k) : setTable t k v k' = t k' := by simp [setTable, h]

/-- `reserveSeqNo` (`client2server.ts` lines 34-49): one atomic
`UPDATE users SET next_seq_no = next_seq_no + ? WHERE id = ?
RETURNING next_seq_no - ? AS next_seq_no`.  If the user row does not exist the
update affects zero rows, `first()` yields no row, and the function throws
`'Failed to reserve sequence number'`; otherwise it returns the value
`nextSeqNo` held before the increment, together with the updated database. -/
def reserveSeqNo (userId : String) (db : DB) (length : Nat) :
    Except String (Nat × DB) :=
  match db.users userId with
  | none => .error "Failed to reserve sequence number"
  | some next =>
    .ok (next, { db with users := setTable db.users userId (next + length) })

/-- The row written by the insert arm of `handleCardOperation`
(`client2server.ts` lines 61-77): all payload columns, the three metadata
columns, and `userId`. -/
def cardInsertRow (op : CardOperation) (seqNo : Nat) : CardRow :=
  { lastModified := op.timestamp
    lastModifiedClient := op.clientId
    seqNo := seqNo
    userId := op.userId
    due := op.payload.due
    stability := op.payload.stability
    difficulty := op.payload.difficulty
    elapsed_days := op.payload.elapsed_days
    scheduled_days := op.payload.scheduled_days
    reps := op.payload.reps
    lapses := op.payload.lapses
    state := op.payload.state
    last_review := op.payload.last_review }

/-- The row produced by the update arm of `handleCardOperation`
(`client2server.ts` lines 80-94): every payload column and all three metadata
columns are overwritten; `userId` is not in the `set` clause, so the stored
value persists. -/
def cardUpdateRow (op : CardOperation) (stored : CardRow) (seqNo : Nat) : CardRow :=
  { seqNo := seqNo
    lastModifiedClient := op.clientId
    lastModified := op.timestamp
    userId := stored.userId
    due := op.payload.due
    stability := op.payload.stability
    difficulty := op.payload.difficulty
    elapsed_days := op.payload.elapsed_days
    scheduled_days := op.payload.scheduled_days
    reps := op.payload.reps
    lapses := op.payload.lapses
    state := op.payload.state
    last_review := op.payload.last_review }

/-- `handleCardOperation` (`client2server.ts` lines 51-101): insert into
`cards`; on conflict on `cards.id`, update with the LWW `setWhere` guard. -/
def handleCardOperation (op : CardOperation) (db : DB) (seqNo : Nat) : DB :=
  match db.cards op.payload.id with
  | none =>
    { db with cards := setTable db.cards op.payload.id (cardInsertRow op seqNo) }
  | some stored =>
    if lwwWins op.timestamp op.clientId stored.lastModified stored.lastModifiedClient then
      { db with cards := setTable db.cards op.payload.id (cardUpdateRow op stored seqNo) }
    else db

/-- The row written by `handleReviewLogOperation`'s insert
(`client2server.ts` lines 118-137).  Note: it sets `createdAt` from
`op.timestamp`, `seqNo` and `lastModifiedClient`; there is no `lastModified`
column among the written values. -/
def reviewLogInsertRow (op : ReviewLogOperation) (seqNo : Nat) : ReviewLogRow :=
  { cardId := op.payload.cardId
    seqNo := seqNo
    lastModifiedClient := op.clientId
    grade := op.payload.grade
    state := op.payload.state
    due := op.payload.due
    stability := op.payload.stability
    difficulty := op.payload.difficulty
    elapsed_days := op.payload.elapsed_days
    last_elapsed_days := op.payload.last_elapsed_days
    scheduled_days := op.payload.scheduled_days
    review := op.payload.review
    duration := op.payload.duration
    createdAt := op.timestamp }

/-- `handleReviewLogOperation` (`client2server.ts` lines 110-141): insert
into the grow-only `reviewLogs` table; on conflict on `reviewLogs.id`, do
nothing. -/
def handleReviewLogOperation (op : ReviewLogOperation) (db : DB) (seqNo : Nat) : DB :=
  match db.reviewLogs op.payload.id with
  | some _ => db
  | none =>
    { db with reviewLogs := setTable db.reviewLogs op.payload.id (reviewLogInsertRow op seqNo) }

/-- The row written by both arms of `handleReviewLogDeletedOperation`
(`client2server.ts` lines 152-174; the insert and update arms list the same
non-key columns). -/
def reviewLogDeletedWriteRow (op : ReviewLogDeletedOperation) (seqNo : Nat) :
    ReviewLogDeletedRow :=
  { deleted := op.payload.deleted
    lastModified := op.timestamp
    lastModifiedClient := op.clientId
    seqNo := seqNo }

/-- `handleReviewLogDeletedOperation` (`client2server.ts` lines 147-175):
LWW upsert into `reviewLogDeleted` keyed by `reviewLogId`. -/
def handleReviewLogDeletedOperation (op : ReviewLogDeletedOperation) (db : DB)
    (seqNo : Nat) : DB :=
  match db.reviewLogDeleted op.payload.reviewLogId with
  | none =>
    { db with reviewLogDeleted :=
        setTable db.reviewLogDeleted op.payload.reviewLogId (reviewLogDeletedWriteRow op seqNo) }
  | some stored =>
    if lwwWins op.timestamp op.clientId stored.lastModified stored.lastModifiedClient then
      { db with reviewLogDeleted :=
          setTable db.reviewLogDeleted op.payload.reviewLogId (reviewLogDeletedWriteRow op seqNo) }
    else db

/-- The row written by both arms of `handleCardContentOperation`
(`client2server.ts` lines 184-200). -/
def cardContentWriteRow (op : CardContentOperation) (seqNo : Nat) : CardContentRow :=
  { front := op.payload.front
    back := op.payload.back
    lastModified := op.timestamp
    lastModifiedClient := op.clientId
    seqNo := seqNo }

/-- `handleCardContentOperation` (`client2server.ts` lines 177-207): LWW
upsert into `cardContents` keyed by `cardId`. -/
def handleCardContentOperation (op : CardContentOperation) (db : DB) (seqNo : Nat) : DB :=
  match db.cardContents op.payload.cardId with
  | none =>
    { db with cardContents :=
        setTable db.cardContents op.payload.cardId (cardContentWriteRow op seqNo) }
  | some stored =>
    if lwwWins op.timestamp op.clientId stored.lastModified stored.lastModifiedClient then
      { db with cardContents :=
          setTable db.cardContents op.payload.cardId (cardContentWriteRow op seqNo) }
    else db

/-- The row written by both arms of `handleCardDeletedOperation`
(`client2server.ts` lines 216-230). -/
def cardDeletedWriteRow (op : CardDeletedOperation) (seqNo : Nat) : CardDeletedRow :=
  { lastModified := op.timestamp
    lastModifiedClient := op.clientId
    seqNo := seqNo
    deleted := op.payload.deleted }

/-- `handleCardDeletedOperation` (`client2server.ts` lines 209-237): LWW
upsert into `cardDeleted` keyed by `cardId`. -/
def handleCardDeletedOperation (op : CardDeletedOperation) (db : DB) (seqNo : Nat) : DB :=
  match db.cardDeleted op.payload.cardId with
  | none =>
    { db with cardDeleted :=
        setTable db.cardDeleted op.payload.cardId (cardDeletedWriteRow op seqNo) }
  | some stored =>
    if lwwWins op.timestamp op.clientId stored.lastModified stored.lastModifiedClient then
      { db with cardDeleted :=
          setTable db.cardDeleted op.payload.cardId (cardDeletedWriteRow op seqNo) }
    else db

/-- The row written by both arms of `handleCardBookmarkedOperation`
(`client2server.ts` lines 246-260). -/
def cardBookmarkedWriteRow (op : CardBookmarkedOperation) (seqNo : Nat) : CardBookmarkedRow :=
  { bookmarked := op.payload.bookmarked
    lastModified := op.timestamp
    lastModifiedClient := op.clientId
    seqNo := seqNo }

/-- `handleCardBookmarkedOperation` (`client2server.ts` lines 239-267): LWW
upsert into `cardBookmarked` keyed by `cardId`. -/
def handleCardBookmarkedOperation (op : CardBookmarkedOperation) (db : DB)
    (seqNo : Nat) : DB :=
  match db.cardBookmarked op.payload.cardId with
  | none =>
    { db with cardBookmarked :=
        setTable db.cardBookmarked op.payload.cardId (cardBookmarkedWriteRow op seqNo) }
  | some stored =>
    if lwwWins op.timestamp op.clientId stored.lastModified stored.lastModifiedClient then
      { db with cardBookmarked :=
          setTable db.cardBookmarked op.payload.cardId (cardBookmarkedWriteRow op seqNo) }
    else db

/-- The row written by both arms of `handleCardSuspendedOperation`
(`client2server.ts` lines 276-290). -/
def cardSuspendedWriteRow (op : CardSuspendedOperation) (seqNo : Nat) : CardSuspendedRow :=
  { suspended := op.payload.suspended
    lastModified := op.timestamp
    lastModifiedClient := op.clientId
    seqNo := seqNo }

/-- `handleCardSuspendedOperation` (`client2server.ts` lines 269-297): LWW
upsert into `cardSuspended` keyed by `cardId`. -/
def handleCardSuspendedOperation (op : CardSuspendedOperation) (db : DB)
    (seqNo : Nat) : DB :=
  match db.cardSuspended op.payload.cardId with
  | none =>
    { db with cardSuspended :=
        setTable db.cardSuspended op.payload.cardId (cardSuspendedWriteRow op seqNo) }
  | some stored =>
    if lwwWins op.timestamp op.clientId stored.lastModified stored.lastModifiedClient then
      { db with cardSuspended :=
          setTable db.cardSuspended op.payload.cardId (cardSuspendedWriteRow op seqNo) }
    else db

/-- The row written by the insert arm of `handleDeckOperation`
(`client2server.ts` lines 306-315); it includes `userId`. -/
def deckInsertRow (op : DeckOperation) (seqNo : Nat) : DeckRow :=
  { name := op.payload.name
    description := op.payload.description
    deleted := op.payload.deleted
    lastModified := op.timestamp
    lastModifiedClient := op.clientId
    seqNo := seqNo
    userId := op.userId }

/-- The row produced by the update arm of `handleDeckOperation`
(`client2server.ts` lines 318-325); `userId` is not in the `set` clause, so
the stored value persists. -/
def deckUpdateRow (op : DeckOperation) (stored : DeckRow) (seqNo : Nat) : DeckRow :=
  { name := op.payload.name
    description := op.payload.description
    deleted := op.payload.deleted
    lastModified := op.timestamp
    lastModifiedClient := op.clientId
    seqNo := seqNo
    userId := stored.userId }

/-- `handleDeckOperation` (`client2server.ts` lines 299-332): LWW upsert into
`decks` keyed by `id`. -/
def handleDeckOperation (op : DeckOperation) (db : DB) (seqNo : Nat) : DB :=
  match db.decks op.payload.id with
  | none =>
    { db with decks := setTable db.decks op.payload.id (deckInsertRow op seqNo) }
  | some stored =>
    if lwwWins op.timestamp op.clientId stored.lastModified stored.lastModifiedClient then
      { db with decks := setTable db.decks op.payload.id (deckUpdateRow op stored seqNo) }
    else db

/-- The row written by both arms of `handleUpdateDeckCardOperation`
(`client2server.ts` lines 344-359). -/
def cardDeckWriteRow (op : UpdateDeckCardOperation) (seqNo : Nat) : CardDeckRow :=
  { seqNo := seqNo
    clCount := op.payload.clCount
    lastModified := op.timestamp
    lastModifiedClient := op.clientId }

/-- `handleUpdateDeckCardOperation` (`client2server.ts` lines 337-362):
upsert into `cardDecks` keyed by `(cardId, deckId)`; the update arm fires
only where `excluded.cl_count > cardDecks.cl_count`. -/
def handleUpdateDeckCardOperation (op : UpdateDeckCardOperation) (db : DB)
    (seqNo : Nat) : DB :=
  match db.cardDecks (op.payload.cardId, op.payload.deckId) with
  | none =>
    { db with cardDecks :=
        setTable db.cardDecks (op.payload.cardId, op.payload.deckId) (cardDeckWriteRow op seqNo) }
  | some stored =>
    if decide (stored.clCount < op.payload.clCount) then
      { db with cardDecks :=
          setTable db.cardDecks (op.payload.cardId, op.payload.deckId) (cardDeckWriteRow op seqNo) }
    else db

/-- `handleClientOperation` (`client2server.ts` lines 364-394): reserve one
sequence number for `op.userId`, then switch on the operation's discriminator
and invoke the matching handler with the reserved number.  The reservation
failure propagates; the switch over the closed `Operation` union is
exhaustive (the TypeScript `default` branch is the `never`-typed
exhaustiveness check). -/
def handleClientOperation (op : Operation) (db : DB) : Except String DB :=
  match reserveSeqNo op.userId db 1 with
  | .error e => .error e
  | .ok (seqNo, db') =>
    match op with
    | .card o => .ok (handleCardOperation o db' seqNo)
    | .reviewLog o => .ok (handleReviewLogOperation o db' seqNo)
    | .reviewLogDeleted o => .ok (handleReviewLogDeletedOperation o db' seqNo)
    | .cardContent o => .ok (handleCardContentOperation o db' seqNo)
    | .cardDeleted o => .ok (handleCardDeletedOperation o db' seqNo)
    | .cardBookmarked o => .ok (handleCardBookmarkedOperation o db' seqNo)
    | .cardSuspended o => .ok (handleCardSuspendedOperation o db' seqNo)
    | .deck o => .ok (handleDeckOperation o db' seqNo)
    | .updateDeckCard o => .ok (handleUpdateDeckCardOperation o db' seqNo)

/-- Result type of `validateOpCount` (`client2server.ts` lines 411-418). -/
inductive ValidateOpCountResult where
  | success : ValidateOpCountResult
  | failure (error : String) : ValidateOpCountResult
deriving DecidableEq, Repr

/-- `MAX_OPS` (`client2server.ts` line 420). -/
def MAX_OPS : Nat := 10000

/-- `TOO_MANY_OPS_ERROR_MSG` (`client2server.ts` line 421). -/
def TOO_MANY_OPS_ERROR_MSG : String := "Too many operations"

/-- `validateOpCount` (`client2server.ts` lines 423-434): reject iff the
batch length exceeds `MAX_OPS`; the operations themselves are not
inspected. -/
def validateOpCount (ops : List Operation) : ValidateOpCountResult :=
  if MAX_OPS < ops.length then .failure TOO_MANY_OPS_ERROR_MSG
  else .success

/-- One tag per operation handler, used to describe the switch in
`handleClientOperation` at the level of the runtime discriminator string. -/
inductive HandlerKind where
  | card | reviewLog | reviewLogDeleted | cardContent | cardDeleted
  | cardBookmarked | cardSuspended | deck | updateDeckCard
deriving DecidableEq, Repr

/-- The closed set of discriminator strings, in the order of the `switch`
cases in `handleClientOperation` (`client2server.ts` lines 371-389). -/
def operationTypes : List String :=
  ["card", "reviewLog", "reviewLogDeleted", "cardContent", "cardDeleted",
   "cardBookmarked", "cardSuspended", "deck", "updateDeckCard"]

/-- The `switch (op.type)` of `handleClientOperation` viewed as a function of
the runtime discriminator string: each of the nine case labels selects its
handler, and every other string reaches the `default` branch (`none` here),
which throws `Unknown operation type`. -/
def dispatchCase (t : String) : Option HandlerKind :=
  if t = "card" then some .card
  else if t = "reviewLog" then some .reviewLog
  else if t = "reviewLogDeleted" then some .reviewLogDeleted
  else if t = "cardContent" then some .cardContent
  else if t = "cardDeleted" then some .cardDeleted
  else if t = "cardBookmarked" then some .cardBookmarked
  else if t = "cardSuspended" then some .cardSuspended
  else if t = "deck" then some .deck
  else if t = "updateDeckCard" then some .updateDeckCard
  else none

/-- The runtime discriminator carried by each member of the closed
`Operation` union (spec section 3.1; these are the strings the `switch` in
`handleClientOperation` matches against). -/
def Operation.type : Operation → String
  | .card _ => "card"
  | .reviewLog _ => "reviewLog"
  | .reviewLogDeleted _ => "reviewLogDeleted"
  | .cardContent _ => "cardContent"
  | .cardDeleted _ => "cardDeleted"
  | .cardBookmarked _ => "cardBookmarked"
  | .cardSuspended _ => "cardSuspended"
  | .deck _ => "deck"
  | .updateDeckCard _ => "updateDeckCard"

/-- The dispatch path of `handleClientOperation` for an operation whose
runtime discriminator `t` falls through to the `default` branch.  Modelled
from the spec: the `Operation` union (`@/operation`, not part of this
module) closes the discriminator set at build time, so inside the typed
model the `default` branch is unreachable; at the wire level an unknown
discriminator reaches it (spec section 4.4).  The sequence number is
reserved first (`client2server.ts` line 365); the `default` branch then
throws without performing any table write, so the database state at the
throw is exactly the post-reservation state.  We return that state together
with `none` when a case label matched (the typed model handles those calls)
or `some errorMessage` when the `default` branch threw. -/
def handleClientOperationWire (userId : String) (t : String) (db : DB) :
    DB × Option String :=
  match reserveSeqNo userId db 1 with
  | .error e => (db, some e)
  | .ok (_, db') =>
    match dispatchCase t with
    | some _ => (db', none)
    | none => (db', some ("Unknown operation type: " ++ t))

/-- Sequential application of a batch of operations through
`handleClientOperation`, stopping at the first error (the surrounding
request handler applies operations of a batch one at a time). -/
def applyOps : List Operation → DB → Except String DB
  | [], db => .ok db
  | op :: rest, db =>
    match handleClientOperation op db with
    | .error e => .error e
    | .ok db' => applyOps rest db'

/-- Projection of an `Except`-valued database computation, for evaluating
concrete runs in closed statements. -/
def extractOk (e : Except String DB) (default : DB) : DB :=
  match e with
  | .ok db => db
  | .error _ => default

/-!
Column-name lists.  For each handler, the list of column names appearing in
its insert `values` object and (where present) in its `onConflictDoUpdate`
`set` object, transcribed in source order from `client2server.ts`.  These
make claims of the form "handler X sets column Y on every write" statable.
-/

/-- Columns of the insert arm of `handleCardOperation` (lines 61-77). -/
def cardInsertColumns : List String :=
  ["lastModified", "lastModifiedClient", "seqNo", "id", "userId", "due", "stability",
   "difficulty", "elapsed_days", "scheduled_days", "reps", "lapses", "state", "last_review"]

/-- Columns of the update arm of `handleCardOperation` (lines 80-94). -/
def cardUpdateColumns : List String :=
  ["seqNo", "lastModifiedClient", "lastModified", "due", "stability", "difficulty",
   "elapsed_days", "scheduled_days", "reps", "lapses", "state", "last_review"]

/-- Columns of the insert of `handleReviewLogOperation` (lines 118-137);
the conflict action is `doNothing`, so there is no update arm. -/
def reviewLogInsertColumns : List String :=
  ["id", "cardId", "seqNo", "lastModifiedClient", "grade", "state", "due", "stability",
   "difficulty", "elapsed_days", "last_elapsed_days", "scheduled_days", "review",
   "duration", "createdAt"]

/-- Columns of the insert arm of `handleReviewLogDeletedOperation` (lines 154-160). -/
def reviewLogDeletedInsertColumns : List String :=
  ["reviewLogId", "deleted", "lastModified", "lastModifiedClient", "seqNo"]

/-- Columns of the update arm of `handleReviewLogDeletedOperation` (lines 163-168). -/
def reviewLogDeletedUpdateColumns : List String :=
  ["deleted", "lastModified", "lastModifiedClient", "seqNo"]

/-- Columns of the insert arm of `handleCardContentOperation` (lines 184-191). -/
def cardContentInsertColumns : List String :=
  ["cardId", "front", "back", "lastModified", "lastModifiedClient", "seqNo"]

/-- Columns of the update arm of `handleCardContentOperation` (lines 194-200). -/
def cardContentUpdateColumns : List String :=
  ["front", "back", "lastModified", "lastModifiedClient", "seqNo"]

/-- Columns of the insert arm of `handleCardDeletedOperation` (lines 216-222). -/
def cardDeletedInsertColumns : List String :=
  ["cardId", "lastModified", "lastModifiedClient", "seqNo", "deleted"]

/-- Columns of the update arm of `handleCardDeletedOperation` (lines 225-230). -/
def cardDeletedUpdateColumns : List String :=
  ["lastModified", "lastModifiedClient", "deleted", "seqNo"]

/-- Columns of the insert arm of `handleCardBookmarkedOperation` (lines 246-252). -/
def cardBookmarkedInsertColumns : List String :=
  ["cardId", "bookmarked", "lastModified", "lastModifiedClient", "seqNo"]

/-- Columns of the update arm of `handleCardBookmarkedOperation` (lines 255-260). -/
def cardBookmarkedUpdateColumns : List String :=
  ["bookmarked", "lastModified", "lastModifiedClient", "seqNo"]

/-- Columns of the insert arm of `handleCardSuspendedOperation` (lines 276-282). -/
def cardSuspendedInsertColumns : List String :=
  ["cardId", "suspended", "lastModified", "lastModifiedClient", "seqNo"]

/-- Columns of the update arm of `handleCardSuspendedOperation` (lines 285-290). -/
def cardSuspendedUpdateColumns : List String :=
  ["suspended", "lastModified", "lastModifiedClient", "seqNo"]

/-- Columns of the insert arm of `handleDeckOperation` (lines 306-315). -/
def deckInsertColumns : List String :=
  ["id", "name", "description", "deleted", "lastModified", "lastModifiedClient",
   "seqNo", "userId"]

/-- Columns of the update arm of `handleDeckOperation` (lines 318-325). -/
def deckUpdateColumns : List String :=
  ["name", "description", "deleted", "lastModified", "lastModifiedClient", "seqNo"]

/-- Columns of the insert arm of `handleUpdateDeckCardOperation` (lines 344-351). -/
def cardDecksInsertColumns : List String :=
  ["cardId", "deckId", "seqNo", "clCount", "lastModified", "lastModifiedClient"]

/-- Columns of the update arm of `handleUpdateDeckCardOperation` (lines 354-359). -/
def cardDecksUpdateColumns : List String :=
  ["clCount", "lastModified", "lastModifiedClient", "seqNo"]

/-!
Concrete fixtures used to evaluate the theorems below on closed inputs.
-/

/-- A database with every table empty and no user rows. -/
def emptyDB : DB :=
  { users := fun _ => none
    cards := fun _ => none
    reviewLogs := fun _ => none
    reviewLogDeleted := fun _ => none
    cardContents := fun _ => none
    cardDeleted := fun _ => none
    cardBookmarked := fun _ => none
    cardSuspended := fun _ => none
    decks := fun _ => none
    cardDecks := fun _ => none }

/-- A database whose only populated row is `users[u] = s`. -/
def userDB (u : String) (s : Nat) : DB :=
  { emptyDB with users := fun x => if x = u then some s else none }

/-- A concrete card payload. -/
def samplePayloadA : CardOpPayload :=
  { id := "c1", due := 10, stability := 1, difficulty := 3, elapsed_days := 0,
    scheduled_days := 1, reps := 1, lapses := 0, state := 2, last_review := none }

/-- A second concrete card payload, distinct from `samplePayloadA`. -/
def samplePayloadB : CardOpPayload :=
  { id := "c1", due := 20, stability := 2, difficulty := 4, elapsed_days := 1,
    scheduled_days := 2, reps := 2, lapses := 1, state := 2, last_review := some 7 }

/-- Card operation: timestamp 100, client `A`. -/
def cardOpA : CardOperation :=
  { timestamp := 100, clientId := "A", userId := "u1", payload := samplePayloadA }

/-- Card operation on the same card: timestamp 200, client `B`. -/
def cardOpB : CardOperation :=
  { timestamp := 200, clientId := "B", userId := "u1", payload := samplePayloadB }

/-- A concrete review-log operation. -/
def reviewLogOp1 : ReviewLogOperation :=
  { timestamp := 100, clientId := "A", userId := "u1",
    payload := { id := "r1", cardId := "c1", grade := 3, state := 1, due := 10,
                 stability := 1, difficulty := 3, elapsed_days := 0,
                 last_elapsed_days := 0, scheduled_days := 1, review := 99,
                 duration := 4 } }

/-- A concrete deck operation. -/
def deckOp1 : DeckOperation :=
  { timestamp := 100, clientId := "A", userId := "u1",
    payload := { id := "d1", name := "Deck", description := "", deleted := false } }

/-- `updateDeckCard` operation with a given counter value and timestamp. -/
def deckCardOp (cl t : Nat) : UpdateDeckCardOperation :=
  { timestamp := t, clientId := "A", userId := "u1",
    payload := { cardId := "c1", deckId := "d1", clCount := cl } }

/-!
Claim theorems.
-/

/-- C2: for every user with an existing `users` row holding `nextSeqNo = s`
and every `n ≥ 1`, `reserveSeqNo(userId, db, n)` returns `s`, the value held
before the increment, and leaves the stored `nextSeqNo` at `s + n`. -/
theorem reserveSeqNo_spec (userId : String) (db : DB) (n s : Nat)
    (_hn : 1 ≤ n) (h : db.users userId = some s) :
    Except.map Prod.fst (reserveSeqNo userId db n) = .ok s ∧
    Except.map (fun p => p.2.users userId) (reserveSeqNo userId db n) =
      .ok (some (s + n)) := by
  unfold reserveSeqNo
  rw [h]
  exact ⟨rfl, by simp [Except.map, setTable]⟩

/-- Witness for C2: reserving `n = 3` from `nextSeqNo = 5` returns `5` and
leaves `nextSeqNo = 8`. -/
theorem reserveSeqNo_spec_witness :
    Except.map Prod.fst (reserveSeqNo "u1" (userDB "u1" 5) 3) = .ok 5 ∧
    Except.map (fun p => p.2.users "u1") (reserveSeqNo "u1" (userDB "u1" 5) 3) =
      .ok (some 8) := by
  have h := reserveSeqNo_spec "u1" (userDB "u1" 5) 3 5 (by decide) (by rfl)
  exact ⟨h.1, by simpa using h.2⟩

/-- C8: `validateOpCount` succeeds iff the batch has at most 10000
operations; a rejected batch yields exactly the error string
`"Too many operations"`; and the result depends only on the length of the
list, never on the contents of any operation. -/
theorem validateOpCount_spec :
    (∀ ops : List Operation, validateOpCount ops = .success ↔ ops.length ≤ 10000) ∧
    (∀ ops : List Operation, ¬ ops.length ≤ 10000 →
      validateOpCount ops = .failure "Too many operations") ∧
    (∀ ops1 ops2 : List Operation, ops1.length = ops2.length →
      validateOpCount ops1 = validateOpCount ops2) := by
  refine ⟨fun ops => ?_, fun ops h => ?_, fun ops1 ops2 h => ?_⟩
  · constructor
    · intro hx
      by_contra hgt
      unfold validateOpCount at hx
      rw [if_pos (by unfold MAX_OPS; omega)] at hx
      exact ValidateOpCountResult.noConfusion hx
    · intro hle
      unfold validateOpCount
      rw [if_neg (by unfold MAX_OPS; omega)]
  · unfold validateOpCount MAX_OPS TOO_MANY_OPS_ERROR_MSG
    rw [if_pos (by omega)]
  · unfold validateOpCount
    rw [h]

/-- Witness for C8: the empty batch is accepted, and two singleton batches
with entirely different contents validate identically. -/
theorem validateOpCount_spec_witness :
    validateOpCount [] = .success ∧
    validateOpCount [Operation.card cardOpA] = validateOpCount [Operation.deck deckOp1] :=
  ⟨(validateOpCount_spec.1 []).mpr (by decide),
   validateOpCount_spec.2.2 [Operation.card cardOpA] [Operation.deck deckOp1] rfl⟩

lemma lwwWins_eq_false_of_not {a c : Nat} {b d : String}
    (h : ¬ (c < a ∨ (c = a ∧ strLtb d b = true))) : lwwWins a b c d = false := by
  cases hx : lwwWins a b c d with
  | false => rfl
  | true => exact absurd (lwwWins_iff.mp hx) h

lemma card_lww_spec (op : CardOperation) (db : DB) (s : Nat) :
    (db.cards op.payload.id = none →
      (handleCardOperation op db s).cards op.payload.id = some (cardInsertRow op s)) ∧
    (∀ r, db.cards op.payload.id = some r →
      ((r.lastModified < op.timestamp ∨
          (r.lastModified = op.timestamp ∧ strLtb r.lastModifiedClient op.clientId = true)) →
        (handleCardOperation op db s).cards op.payload.id = some (cardUpdateRow op r s)) ∧
      (¬ (r.lastModified < op.timestamp ∨
          (r.lastModified = op.timestamp ∧ strLtb r.lastModifiedClient op.clientId = true)) →
        handleCardOperation op db s = db)) := by
  refine ⟨fun h => ?_, fun r hr => ⟨fun hlex => ?_, fun hnot => ?_⟩⟩
  · simp [handleCardOperation, h, setTable_self]
  · simp [handleCardOperation, hr, lwwWins_iff.mpr hlex, setTable_self]
  · simp [handleCardOperation, hr, lwwWins_eq_false_of_not hnot]

lemma cardContent_lww_spec (op : CardContentOperation) (db : DB) (s : Nat) :
    (db.cardContents op.payload.cardId = none →
      (handleCardContentOperation op db s).cardContents op.payload.cardId =
        some (cardContentWriteRow op s)) ∧
    (∀ r, db.cardContents op.payload.cardId = some r →
      ((r.lastModified < op.timestamp ∨
          (r.lastModified = op.timestamp ∧ strLtb r.lastModifiedClient op.clientId = true)) →
        (handleCardContentOperation op db s).cardContents op.payload.cardId =
          some (cardContentWriteRow op s)) ∧
      (¬ (r.lastModified < op.timestamp ∨
          (r.lastModified = op.timestamp ∧ strLtb r.lastModifiedClient op.clientId = true)) →
        handleCardContentOperation op db s = db)) := by
  refine ⟨fun h => ?_, fun r hr => ⟨fun hlex => ?_, fun hnot => ?_⟩⟩
  · simp [handleCardContentOperation, h, setTable_self]
  · simp [handleCardContentOperation, hr, lwwWins_iff.mpr hlex, setTable_self]
  · simp [handleCardContentOperation, hr, lwwWins_eq_false_of_not hnot]

lemma cardDeleted_lww_spec (op : CardDeletedOperation) (db : DB) (s : Nat) :
    (db.cardDeleted op.payload.cardId = none →
      (handleCardDeletedOperation op db s).cardDeleted op.payload.cardId =
        some (cardDeletedWriteRow op s)) ∧
    (∀ r, db.cardDeleted op.payload.cardId = some r →
      ((r.lastModified < op.timestamp ∨
          (r.lastModified = op.timestamp ∧ strLtb r.lastModifiedClient op.clientId = true)) →
        (handleCardDeletedOperation op db s).cardDeleted op.payload.cardId =
          some (cardDeletedWriteRow op s)) ∧
      (¬ (r.lastModified < op.timestamp ∨
          (r.lastModified = op.timestamp ∧ strLtb r.lastModifiedClient op.clientId = true)) →
        handleCardDeletedOperation op db s = db)) := by
  refine ⟨fun h => ?_, fun r hr => ⟨fun hlex => ?_, fun hnot => ?_⟩⟩
  · simp [handleCardDeletedOperation, h, setTable_self]
  · simp [handleCardDeletedOperation, hr, lwwWins_iff.mpr hlex, setTable_self]
  · simp [handleCardDeletedOperation, hr, lwwWins_eq_false_of_not hnot]

lemma cardBookmarked_lww_spec (op : CardBookmarkedOperation) (db : DB) (s : Nat) :
    (db.cardBookmarked op.payload.cardId = none →
      (handleCardBookmarkedOperation op db s).cardBookmarked op.payload.cardId =
        some (cardBookmarkedWriteRow op s)) ∧
    (∀ r, db.cardBookmarked op.payload.cardId = some r →
      ((r.lastModified < op.timestamp ∨
          (r.lastModified = op.timestamp ∧ strLtb r.lastModifiedClient op.clientId = true)) →
        (handleCardBookmarkedOperation op db s).cardBookmarked op.payload.cardId =
          some (cardBookmarkedWriteRow op s)) ∧
      (¬ (r.lastModified < op.timestamp ∨
          (r.lastModified = op.timestamp ∧ strLtb r.lastModifiedClient op.clientId = true)) →
        handleCardBookmarkedOperation op db s = db)) := by
  refine ⟨fun h => ?_, fun r hr => ⟨fun hlex => ?_, fun hnot => ?_⟩⟩
  · simp [handleCardBookmarkedOperation, h, setTable_self]
  · simp [handleCardBookmarkedOperation, hr, lwwWins_iff.mpr hlex, setTable_self]
  · simp [handleCardBookmarkedOperation, hr, lwwWins_eq_false_of_not hnot]

lemma cardSuspended_lww_spec (op : CardSuspendedOperation) (db : DB) (s : Nat) :
    (db.cardSuspended op.payload.cardId = none →
      (handleCardSuspendedOperation op db s).cardSuspended op.payload.cardId =
        some (cardSuspendedWriteRow op s)) ∧
    (∀ r, db.cardSuspended op.payload.cardId = some r →
      ((r.lastModified < op.timestamp ∨
          (r.lastModified = op.timestamp ∧ strLtb r.lastModifiedClient op.clientId = true)) →
        (handleCardSuspendedOperation op db s).cardSuspended op.payload.cardId =
          some (cardSuspendedWriteRow op s)) ∧
      (¬ (r.lastModified < op.timestamp ∨
          (r.lastModified = op.timestamp ∧ strLtb r.lastModifiedClient op.clientId = true)) →
        handleCardSuspendedOperation op db s = db)) := by
  refine ⟨fun h => ?_, fun r hr => ⟨fun hlex => ?_, fun hnot => ?_⟩⟩
  · simp [handleCardSuspendedOperation, h, setTable_self]
  · simp [handleCardSuspendedOperation, hr, lwwWins_iff.mpr hlex, setTable_self]
  · simp [handleCardSuspendedOperation, hr, lwwWins_eq_false_of_not hnot]

lemma deck_lww_spec (op : DeckOperation) (db : DB) (s : Nat) :
    (db.decks op.payload.id = none →
      (handleDeckOperation op db s).decks op.payload.id = some (deckInsertRow op s)) ∧
    (∀ r, db.decks op.payload.id = some r →
      ((r.lastModified < op.timestamp ∨
          (r.lastModified = op.timestamp ∧ strLtb r.lastModifiedClient op.clientId = true)) →
        (handleDeckOperation op db s).decks op.payload.id = some (deckUpdateRow op r s)) ∧
      (¬ (r.lastModified < op.timestamp ∨
          (r.lastModified = op.timestamp ∧ strLtb r.lastModifiedClient op.clientId = true)) →
        handleDeckOperation op db s = db)) := by
  refine ⟨fun h => ?_, fun r hr => ⟨fun hlex => ?_, fun hnot => ?_⟩⟩
  · simp [handleDeckOperation, h, setTable_self]
  · simp [handleDeckOperation, hr, lwwWins_iff.mpr hlex, setTable_self]
  · simp [handleDeckOperation, hr, lwwWins_eq_false_of_not hnot]

lemma reviewLogDeleted_lww_spec (op : ReviewLogDeletedOperation) (db : DB) (s : Nat) :
    (db.reviewLogDeleted op.payload.reviewLogId = none →
      (handleReviewLogDeletedOperation op db s).reviewLogDeleted op.payload.reviewLogId =
        some (reviewLogDeletedWriteRow op s)) ∧
    (∀ r, db.reviewLogDeleted op.payload.reviewLogId = some r →
      ((r.lastModified < op.timestamp ∨
          (r.lastModified = op.timestamp ∧ strLtb r.lastModifiedClient op.clientId = true)) →
        (handleReviewLogDeletedOperation op db s).reviewLogDeleted op.payload.reviewLogId =
          some (reviewLogDeletedWriteRow op s)) ∧
      (¬ (r.lastModified < op.timestamp ∨
          (r.lastModified = op.timestamp ∧ strLtb r.lastModifiedClient op.clientId = true)) →
        handleReviewLogDeletedOperation op db s = db)) := by
  refine ⟨fun h => ?_, fun r hr => ⟨fun hlex => ?_, fun hnot => ?_⟩⟩
  · simp [handleReviewLogDeletedOperation, h, setTable_self]
  · simp [handleReviewLogDeletedOperation, hr, lwwWins_iff.mpr hlex, setTable_self]
  · simp [handleReviewLogDeletedOperation, hr, lwwWins_eq_false_of_not hnot]

/-- C1: for every LWW-register operation kind (`card`, `cardContent`,
`cardDeleted`, `cardBookmarked`, `cardSuspended`, `deck`,
`reviewLogDeleted`) on a given key: if no row exists for that key the
incoming payload and metadata are installed unconditionally; if a row
exists, all payload fields and all three metadata fields are overwritten as
one indivisible upsert exactly when `(incoming.lastModified,
incoming.lastModifiedClient)` is lexicographically strictly greater than the
stored pair; otherwise — including on an equal pair — the database is left
completely unchanged. -/
theorem lww_register_upsert_spec :
    (∀ (op : CardOperation) (db : DB) (s : Nat),
      (db.cards op.payload.id = none →
        (handleCardOperation op db s).cards op.payload.id = some (cardInsertRow op s)) ∧
      (∀ r, db.cards op.payload.id = some r →
        ((r.lastModified < op.timestamp ∨
            (r.lastModified = op.timestamp ∧ strLtb r.lastModifiedClient op.clientId = true)) →
          (handleCardOperation op db s).cards op.payload.id = some (cardUpdateRow op r s)) ∧
        (¬ (r.lastModified < op.timestamp ∨
            (r.lastModified = op.timestamp ∧ strLtb r.lastModifiedClient op.clientId = true)) →
          handleCardOperation op db s = db))) ∧
    (∀ (op : CardContentOperation) (db : DB) (s : Nat),
      (db.cardContents op.payload.cardId = none →
        (handleCardContentOperation op db s).cardContents op.payload.cardId =
          some (cardContentWriteRow op s)) ∧
      (∀ r, db.cardContents op.payload.cardId = some r →
        ((r.lastModified < op.timestamp ∨
            (r.lastModified = op.timestamp ∧ strLtb r.lastModifiedClient op.clientId = true)) →
          (handleCardContentOperation op db s).cardContents op.payload.cardId =
            some (cardContentWriteRow op s)) ∧
        (¬ (r.lastModified < op.timestamp ∨
            (r.lastModified = op.timestamp ∧ strLtb r.lastModifiedClient op.clientId = true)) →
          handleCardContentOperation op db s = db))) ∧
    (∀ (op : CardDeletedOperation) (db : DB) (s : Nat),
      (db.cardDeleted op.payload.cardId = none →
        (handleCardDeletedOperation op db s).cardDeleted op.payload.cardId =
          some (cardDeletedWriteRow op s)) ∧
      (∀ r, db.cardDeleted op.payload.cardId = some r →
        ((r.lastModified < op.timestamp ∨
            (r.lastModified = op.timestamp ∧ strLtb r.lastModifiedClient op.clientId = true)) →
          (handleCardDeletedOperation op db s).cardDeleted op.payload.cardId =
            some (cardDeletedWriteRow op s)) ∧
        (¬ (r.lastModified < op.timestamp ∨
            (r.lastModified = op.timestamp ∧ strLtb r.lastModifiedClient op.clientId = true)) →
          handleCardDeletedOperation op db s = db))) ∧
    (∀ (op : CardBookmarkedOperation) (db : DB) (s : Nat),
      (db.cardBookmarked op.payload.cardId = none →
        (handleCardBookmarkedOperation op db s).cardBookmarked op.payload.cardId =
          some (cardBookmarkedWriteRow op s)) ∧
      (∀ r, db.cardBookmarked op.payload.cardId = some r →
        ((r.lastModified < op.timestamp ∨
            (r.lastModified = op.timestamp ∧ strLtb r.lastModifiedClient op.clientId = true)) →
          (handleCardBookmarkedOperation op db s).cardBookmarked op.payload.cardId =
            some (cardBookmarkedWriteRow op s)) ∧
        (¬ (r.lastModified < op.timestamp ∨
            (r.lastModified = op.timestamp ∧ strLtb r.lastModifiedClient op.clientId = true)) →
          handleCardBookmarkedOperation op db s = db))) ∧
    (∀ (op : CardSuspendedOperation) (db : DB) (s : Nat),
      (db.cardSuspended op.payload.cardId = none →
        (handleCardSuspendedOperation op db s).cardSuspended op.payload.cardId =
          some (cardSuspendedWriteRow op s)) ∧
      (∀ r, db.cardSuspended op.payload.cardId = some r →
        ((r.lastModified < op.timestamp ∨
            (r.lastModified = op.timestamp ∧ strLtb r.lastModifiedClient op.clientId = true)) →
          (handleCardSuspendedOperation op db s).cardSuspended op.payload.cardId =
            some (cardSuspendedWriteRow op s)) ∧
        (¬ (r.lastModified < op.timestamp ∨
            (r.lastModified = op.timestamp ∧ strLtb r.lastModifiedClient op.clientId = true)) →
          handleCardSuspendedOperation op db s = db))) ∧
    (∀ (op : DeckOperation) (db : DB) (s : Nat),
      (db.decks op.payload.id = none →
        (handleDeckOperation op db s).decks op.payload.id = some (deckInsertRow op s)) ∧
      (∀ r, db.decks op.payload.id = some r →
        ((r.lastModified < op.timestamp ∨
            (r.lastModified = op.timestamp ∧ strLtb r.lastModifiedClient op.clientId = true)) →
          (handleDeckOperation op db s).decks op.payload.id = some (deckUpdateRow op r s)) ∧
        (¬ (r.lastModified < op.timestamp ∨
            (r.lastModified = op.timestamp ∧ strLtb r.lastModifiedClient op.clientId = true)) →
          handleDeckOperation op db s = db))) ∧
    (∀ (op : ReviewLogDeletedOperation) (db : DB) (s : Nat),
      (db.reviewLogDeleted op.payload.reviewLogId = none →
        (handleReviewLogDeletedOperation op db s).reviewLogDeleted op.payload.reviewLogId =
          some (reviewLogDeletedWriteRow op s)) ∧
      (∀ r, db.reviewLogDeleted op.payload.reviewLogId = some r →
        ((r.lastModified < op.timestamp ∨
            (r.lastModified = op.timestamp ∧ strLtb r.lastModifiedClient op.clientId = true)) →
          (handleReviewLogDeletedOperation op db s).reviewLogDeleted op.payload.reviewLogId =
            some (reviewLogDeletedWriteRow op s)) ∧
        (¬ (r.lastModified < op.timestamp ∨
            (r.lastModified = op.timestamp ∧ strLtb r.lastModifiedClient op.clientId = true)) →
          handleReviewLogDeletedOperation op db s = db))) :=
  ⟨card_lww_spec, cardContent_lww_spec, cardDeleted_lww_spec, cardBookmarked_lww_spec,
   cardSuspended_lww_spec, deck_lww_spec, reviewLogDeleted_lww_spec⟩

/-- Witness for C1: on an empty database the card write is installed; an
exact replay (equal `(lastModified, lastModifiedClient)` pair) is a no-op. -/
theorem lww_register_upsert_spec_witness :
    (handleCardOperation cardOpA emptyDB 1).cards "c1" = some (cardInsertRow cardOpA 1) ∧
    handleCardOperation cardOpA (handleCardOperation cardOpA emptyDB 1) 2 =
      handleCardOperation cardOpA emptyDB 1 := by
  refine ⟨(lww_register_upsert_spec.1 cardOpA emptyDB 1).1 rfl, ?_⟩
  exact ((lww_register_upsert_spec.1 cardOpA (handleCardOperation cardOpA emptyDB 1) 2).2
    (cardInsertRow cardOpA 1) (by rfl)).2 (by decide)

/-- C4: for every `updateDeckCard` operation on a `(cardId, deckId)` key with
an existing row, the incoming row (`clCount`, `lastModified`,
`lastModifiedClient`, `seqNo`) is installed iff `incoming.clCount` is
strictly greater than `stored.clCount`; an equal (or smaller) `clCount`
leaves the database unchanged, and the conflict predicate mentions only
`clCount` (both metadata fields are universally quantified).  Concretely,
applying `clCount` 1, then 2, then 1 leaves the stored `clCount = 2`. -/
theorem updateDeckCard_counter_spec :
    (∀ (op : UpdateDeckCardOperation) (db : DB) (s : Nat) r,
      db.cardDecks (op.payload.cardId, op.payload.deckId) = some r →
      ((r.clCount < op.payload.clCount →
        (handleUpdateDeckCardOperation op db s).cardDecks
          (op.payload.cardId, op.payload.deckId) = some (cardDeckWriteRow op s)) ∧
       (¬ r.clCount < op.payload.clCount →
        handleUpdateDeckCardOperation op db s = db))) ∧
    Option.map CardDeckRow.clCount
      ((extractOk (applyOps
        [Operation.updateDeckCard (deckCardOp 1 100),
         Operation.updateDeckCard (deckCardOp 2 200),
         Operation.updateDeckCard (deckCardOp 1 300)] (userDB "u1" 1)) emptyDB).cardDecks
        ("c1", "d1")) = some 2 := by
  constructor
  · intro op db s r hr
    constructor
    · intro hlt
      simp [handleUpdateDeckCardOperation, hr, hlt, setTable_self]
    · intro hge
      simp [handleUpdateDeckCardOperation, hr, hge]
  · rfl

/-- Witness for C4: with a stored row holding `clCount = 1`, an incoming
`clCount = 2` installs and an incoming (replayed) `clCount = 1` is a no-op. -/
theorem updateDeckCard_counter_spec_witness :
    (handleUpdateDeckCardOperation (deckCardOp 2 200)
      (handleUpdateDeckCardOperation (deckCardOp 1 100) emptyDB 1) 2).cardDecks ("c1", "d1") =
      some (cardDeckWriteRow (deckCardOp 2 200) 2) ∧
    handleUpdateDeckCardOperation (deckCardOp 1 300)
      (handleUpdateDeckCardOperation (deckCardOp 1 100) emptyDB 1) 3 =
      handleUpdateDeckCardOperation (deckCardOp 1 100) emptyDB 1 := by
  constructor
  · exact ((updateDeckCard_counter_spec.1 (deckCardOp 2 200)
      (handleUpdateDeckCardOperation (deckCardOp 1 100) emptyDB 1) 2
      (cardDeckWriteRow (deckCardOp 1 100) 1) (by rfl)).1 (by decide))
  · exact ((updateDeckCard_counter_spec.1 (deckCardOp 1 300)
      (handleUpdateDeckCardOperation (deckCardOp 1 100) emptyDB 1) 3
      (cardDeckWriteRow (deckCardOp 1 100) 1) (by rfl)).2 (by decide))

lemma reviewLog_noop (op : ReviewLogOperation) (d : DB) (s : Nat) (r : ReviewLogRow)
    (hd : d.reviewLogs op.payload.id = some r) : handleReviewLogOperation op d s = d := by
  simp [handleReviewLogOperation, hd]

lemma reviewLog_foldl_noop (op : ReviewLogOperation) (r : ReviewLogRow) :
    ∀ (seqs : List Nat) (d : DB), d.reviewLogs op.payload.id = some r →
      List.foldl (fun d' s2 => handleReviewLogOperation op d' s2) d seqs = d
  | [], _, _ => rfl
  | a :: t, d, hd => by
    rw [List.foldl_cons, reviewLog_noop op d a r hd]
    exact reviewLog_foldl_noop op r t d hd

/-- C5: applying the same `reviewLog` operation any number of times (with
arbitrary fresh sequence numbers) yields exactly the row produced by the
first successful application; every later application leaves the database
entirely unchanged, and none can fail (the handler is total: the conflict
action is `doNothing`). -/
theorem reviewLog_grow_only_idempotent (op : ReviewLogOperation) (db : DB)
    (s : Nat) (seqs : List Nat) (h : db.reviewLogs op.payload.id = none) :
    (handleReviewLogOperation op db s).reviewLogs op.payload.id =
      some (reviewLogInsertRow op s) ∧
    List.foldl (fun d' s2 => handleReviewLogOperation op d' s2)
      (handleReviewLogOperation op db s) seqs = handleReviewLogOperation op db s := by
  have hrow : (handleReviewLogOperation op db s).reviewLogs op.payload.id =
      some (reviewLogInsertRow op s) := by
    simp [handleReviewLogOperation, h, setTable_self]
  exact ⟨hrow, reviewLog_foldl_noop op (reviewLogInsertRow op s) seqs _ hrow⟩

/-- Witness for C5: the review log `r1` is inserted once; two replays with
fresh sequence numbers change nothing. -/
theorem reviewLog_grow_only_idempotent_witness :
    (handleReviewLogOperation reviewLogOp1 emptyDB 1).reviewLogs "r1" =
      some (reviewLogInsertRow reviewLogOp1 1) ∧
    List.foldl (fun d' s2 => handleReviewLogOperation reviewLogOp1 d' s2)
      (handleReviewLogOperation reviewLogOp1 emptyDB 1) [2, 3] =
      handleReviewLogOperation reviewLogOp1 emptyDB 1 :=
  reviewLog_grow_only_idempotent reviewLogOp1 emptyDB 1 [2, 3] rfl

/-!
Pointwise views of the handlers: each handler changes exactly one table, and
at exactly one key, by a merge step that depends only on the stored row at
that key.  The `*MergeStep` functions below are proved equal to the handlers
(`*_lookup` lemmas) and are the basis for the idempotence, replay and
commutativity arguments.
-/

/-- The effect of `handleCardOperation` on the row stored at its key. -/
def cardMergeStep (op : CardOperation) (s : Nat) (cur : Option CardRow) : Option CardRow :=
  match cur with
  | none => some (cardInsertRow op s)
  | some stored =>
    if lwwWins op.timestamp op.clientId stored.lastModified stored.lastModifiedClient then
      some (cardUpdateRow op stored s)
    else some stored

lemma handleCard_lookup (op : CardOperation) (db : DB) (s : Nat) (k : String) :
    (handleCardOperation op db s).cards k =
      if k = op.payload.id then cardMergeStep op s (db.cards op.payload.id)
      else db.cards k := by
  cases h : db.cards op.payload.id with
  | none =>
    by_cases hk : k = op.payload.id <;>
      simp [handleCardOperation, cardMergeStep, h, setTable, hk]
  | some stored =>
    cases hw : lwwWins op.timestamp op.clientId stored.lastModified stored.lastModifiedClient <;>
      by_cases hk : k = op.payload.id <;>
        simp [handleCardOperation, cardMergeStep, h, hw, setTable, hk]

lemma handleCard_frame (op : CardOperation) (db : DB) (s : Nat) :
    (handleCardOperation op db s).users = db.users ∧
    (handleCardOperation op db s).reviewLogs = db.reviewLogs ∧
    (handleCardOperation op db s).reviewLogDeleted = db.reviewLogDeleted ∧
    (handleCardOperation op db s).cardContents = db.cardContents ∧
    (handleCardOperation op db s).cardDeleted = db.cardDeleted ∧
    (handleCardOperation op db s).cardBookmarked = db.cardBookmarked ∧
    (handleCardOperation op db s).cardSuspended = db.cardSuspended ∧
    (handleCardOperation op db s).decks = db.decks ∧
    (handleCardOperation op db s).cardDecks = db.cardDecks := by
  cases h : db.cards op.payload.id with
  | none => simp [handleCardOperation, h]
  | some stored =>
    cases hw : lwwWins op.timestamp op.clientId stored.lastModified stored.lastModifiedClient <;>
      simp [handleCardOperation, h, hw]

lemma cardMergeStep_idem (op : CardOperation) (s s' : Nat) (cur : Option CardRow) :
    cardMergeStep op s' (cardMergeStep op s cur) = cardMergeStep op s cur := by
  cases cur with
  | none => simp [cardMergeStep, cardInsertRow, lwwWins_irrefl]
  | some stored =>
    cases hw : lwwWins op.timestamp op.clientId stored.lastModified stored.lastModifiedClient <;>
      simp [cardMergeStep, cardUpdateRow, hw, lwwWins_irrefl]

/-- The effect of `handleReviewLogOperation` on the row stored at its key. -/
def reviewLogMergeStep (op : ReviewLogOperation) (s : Nat) (cur : Option ReviewLogRow) :
    Option ReviewLogRow :=
  match cur with
  | some stored => some stored
  | none => some (reviewLogInsertRow op s)

lemma handleReviewLog_lookup (op : ReviewLogOperation) (db : DB) (s : Nat) (k : String) :
    (handleReviewLogOperation op db s).reviewLogs k =
      if k = op.payload.id then reviewLogMergeStep op s (db.reviewLogs op.payload.id)
      else db.reviewLogs k := by
  cases h : db.reviewLogs op.payload.id with
  | none =>
    by_cases hk : k = op.payload.id <;>
      simp [handleReviewLogOperation, reviewLogMergeStep, h, setTable, hk]
  | some stored =>
    by_cases hk : k = op.payload.id <;>
      simp [handleReviewLogOperation, reviewLogMergeStep, h, setTable, hk]

lemma handleReviewLog_frame (op : ReviewLogOperation) (db : DB) (s : Nat) :
    (handleReviewLogOperation op db s).users = db.users ∧
    (handleReviewLogOperation op db s).cards = db.cards ∧
    (handleReviewLogOperation op db s).reviewLogDeleted = db.reviewLogDeleted ∧
    (handleReviewLogOperation op db s).cardContents = db.cardContents ∧
    (handleReviewLogOperation op db s).cardDeleted = db.cardDeleted ∧
    (handleReviewLogOperation op db s).cardBookmarked = db.cardBookmarked ∧
    (handleReviewLogOperation op db s).cardSuspended = db.cardSuspended ∧
    (handleReviewLogOperation op db s).decks = db.decks ∧
    (handleReviewLogOperation op db s).cardDecks = db.cardDecks := by
  cases h : db.reviewLogs op.payload.id <;> simp [handleReviewLogOperation, h]

lemma reviewLogMergeStep_idem (op : ReviewLogOperation) (s s' : Nat)
    (cur : Option ReviewLogRow) :
    reviewLogMergeStep op s' (reviewLogMergeStep op s cur) = reviewLogMergeStep op s cur := by
  cases cur <;> simp [reviewLogMergeStep]

/-- The effect of `handleReviewLogDeletedOperation` on the row at its key. -/
def reviewLogDeletedMergeStep (op : ReviewLogDeletedOperation) (s : Nat)
    (cur : Option ReviewLogDeletedRow) : Option ReviewLogDeletedRow :=
  match cur with
  | none => some (reviewLogDeletedWriteRow op s)
  | some stored =>
    if lwwWins op.timestamp op.clientId stored.lastModified stored.lastModifiedClient then
      some (reviewLogDeletedWriteRow op s)
    else some stored

lemma handleReviewLogDeleted_lookup (op : ReviewLogDeletedOperation) (db : DB) (s : Nat)
    (k : String) :
    (handleReviewLogDeletedOperation op db s).reviewLogDeleted k =
      if k = op.payload.reviewLogId then
        reviewLogDeletedMergeStep op s (db.reviewLogDeleted op.payload.reviewLogId)
      else db.reviewLogDeleted k := by
  cases h : db.reviewLogDeleted op.payload.reviewLogId with
  | none =>
    by_cases hk : k = op.payload.reviewLogId <;>
      simp [handleReviewLogDeletedOperation, reviewLogDeletedMergeStep, h, setTable, hk]
  | some stored =>
    cases hw : lwwWins op.timestamp op.clientId stored.lastModified stored.lastModifiedClient <;>
      by_cases hk : k = op.payload.reviewLogId <;>
        simp [handleReviewLogDeletedOperation, reviewLogDeletedMergeStep, h, hw, setTable, hk]

lemma handleReviewLogDeleted_frame (op : ReviewLogDeletedOperation) (db : DB) (s : Nat) :
    (handleReviewLogDeletedOperation op db s).users = db.users ∧
    (handleReviewLogDeletedOperation op db s).cards = db.cards ∧
    (handleReviewLogDeletedOperation op db s).reviewLogs = db.reviewLogs ∧
    (handleReviewLogDeletedOperation op db s).cardContents = db.cardContents ∧
    (handleReviewLogDeletedOperation op db s).cardDeleted = db.cardDeleted ∧
    (handleReviewLogDeletedOperation op db s).cardBookmarked = db.cardBookmarked ∧
    (handleReviewLogDeletedOperation op db s).cardSuspended = db.cardSuspended ∧
    (handleReviewLogDeletedOperation op db s).decks = db.decks ∧
    (handleReviewLogDeletedOperation op db s).cardDecks = db.cardDecks := by
  cases h : db.reviewLogDeleted op.payload.reviewLogId with
  | none => simp [handleReviewLogDeletedOperation, h]
  | some stored =>
    cases hw : lwwWins op.timestamp op.clientId stored.lastModified stored.lastModifiedClient <;>
      simp [handleReviewLogDeletedOperation, h, hw]

lemma reviewLogDeletedMergeStep_idem (op : ReviewLogDeletedOperation) (s s' : Nat)
    (cur : Option ReviewLogDeletedRow) :
    reviewLogDeletedMergeStep op s' (reviewLogDeletedMergeStep op s cur) =
      reviewLogDeletedMergeStep op s cur := by
  cases cur with
  | none => simp [reviewLogDeletedMergeStep, reviewLogDeletedWriteRow, lwwWins_irrefl]
  | some stored =>
    cases hw : lwwWins op.timestamp op.clientId stored.lastModified stored.lastModifiedClient <;>
      simp [reviewLogDeletedMergeStep, reviewLogDeletedWriteRow, hw, lwwWins_irrefl]

/-- The effect of `handleCardContentOperation` on the row at its key. -/
def cardContentMergeStep (op : CardContentOperation) (s : Nat)
    (cur : Option CardContentRow) : Option CardContentRow :=
  match cur with
  | none => some (cardContentWriteRow op s)
  | some stored =>
    if lwwWins op.timestamp op.clientId stored.lastModified stored.lastModifiedClient then
      some (cardContentWriteRow op s)
    else some stored

lemma handleCardContent_lookup (op : CardContentOperation) (db : DB) (s : Nat) (k : String) :
    (handleCardContentOperation op db s).cardContents k =
      if k = op.payload.cardId then
        cardContentMergeStep op s (db.cardContents op.payload.cardId)
      else db.cardContents k := by
  cases h : db.cardContents op.payload.cardId with
  | none =>
    by_cases hk : k = op.payload.cardId <;>
      simp [handleCardContentOperation, cardContentMergeStep, h, setTable, hk]
  | some stored =>
    cases hw : lwwWins op.timestamp op.clientId stored.lastModified stored.lastModifiedClient <;>
      by_cases hk : k = op.payload.cardId <;>
        simp [handleCardContentOperation, cardContentMergeStep, h, hw, setTable, hk]

lemma handleCardContent_frame (op : CardContentOperation) (db : DB) (s : Nat) :
    (handleCardContentOperation op db s).users = db.users ∧
    (handleCardContentOperation op db s).cards = db.cards ∧
    (handleCardContentOperation op db s).reviewLogs = db.reviewLogs ∧
    (handleCardContentOperation op db s).reviewLogDeleted = db.reviewLogDeleted ∧
    (handleCardContentOperation op db s).cardDeleted = db.cardDeleted ∧
    (handleCardContentOperation op db s).cardBookmarked = db.cardBookmarked ∧
    (handleCardContentOperation op db s).cardSuspended = db.cardSuspended ∧
    (handleCardContentOperation op db s).decks = db.decks ∧
    (handleCardContentOperation op db s).cardDecks = db.cardDecks := by
  cases h : db.cardContents op.payload.cardId with
  | none => simp [handleCardContentOperation, h]
  | some stored =>
    cases hw : lwwWins op.timestamp op.clientId stored.lastModified stored.lastModifiedClient <;>
      simp [handleCardContentOperation, h, hw]

lemma cardContentMergeStep_idem (op : CardContentOperation) (s s' : Nat)
    (cur : Option CardContentRow) :
    cardContentMergeStep op s' (cardContentMergeStep op s cur) =
      cardContentMergeStep op s cur := by
  cases cur with
  | none => simp [cardContentMergeStep, cardContentWriteRow, lwwWins_irrefl]
  | some stored =>
    cases hw : lwwWins op.timestamp op.clientId stored.lastModified stored.lastModifiedClient <;>
      simp [cardContentMergeStep, cardContentWriteRow, hw, lwwWins_irrefl]

/-- The effect of `handleCardDeletedOperation` on the row at its key. -/
def cardDeletedMergeStep (op : CardDeletedOperation) (s : Nat)
    (cur : Option CardDeletedRow) : Option CardDeletedRow :=
  match cur with
  | none => some (cardDeletedWriteRow op s)
  | some stored =>
    if lwwWins op.timestamp op.clientId stored.lastModified stored.lastModifiedClient then
      some (cardDeletedWriteRow op s)
    else some stored

lemma handleCardDeleted_lookup (op : CardDeletedOperation) (db : DB) (s : Nat) (k : String) :
    (handleCardDeletedOperation op db s).cardDeleted k =
      if k = op.payload.cardId then
        cardDeletedMergeStep op s (db.cardDeleted op.payload.cardId)
      else db.cardDeleted k := by
  cases h : db.cardDeleted op.payload.cardId with
  | none =>
    by_cases hk : k = op.payload.cardId <;>
      simp [handleCardDeletedOperation, cardDeletedMergeStep, h, setTable, hk]
  | some stored =>
    cases hw : lwwWins op.timestamp op.clientId stored.lastModified stored.lastModifiedClient <;>
      by_cases hk : k = op.payload.cardId <;>
        simp [handleCardDeletedOperation, cardDeletedMergeStep, h, hw, setTable, hk]

lemma handleCardDeleted_frame (op : CardDeletedOperation) (db : DB) (s : Nat) :
    (handleCardDeletedOperation op db s).users = db.users ∧
    (handleCardDeletedOperation op db s).cards = db.cards ∧
    (handleCardDeletedOperation op db s).reviewLogs = db.reviewLogs ∧
    (handleCardDeletedOperation op db s).reviewLogDeleted = db.reviewLogDeleted ∧
    (handleCardDeletedOperation op db s).cardContents = db.cardContents ∧
    (handleCardDeletedOperation op db s).cardBookmarked = db.cardBookmarked ∧
    (handleCardDeletedOperation op db s).cardSuspended = db.cardSuspended ∧
    (handleCardDeletedOperation op db s).decks = db.decks ∧
    (handleCardDeletedOperation op db s).cardDecks = db.cardDecks := by
  cases h : db.cardDeleted op.payload.cardId with
  | none => simp [handleCardDeletedOperation, h]
  | some stored =>
    cases hw : lwwWins op.timestamp op.clientId stored.lastModified stored.lastModifiedClient <;>
      simp [handleCardDeletedOperation, h, hw]

lemma cardDeletedMergeStep_idem (op : CardDeletedOperation) (s s' : Nat)
    (cur : Option CardDeletedRow) :
    cardDeletedMergeStep op s' (cardDeletedMergeStep op s cur) =
      cardDeletedMergeStep op s cur := by
  cases cur with
  | none => simp [cardDeletedMergeStep, cardDeletedWriteRow, lwwWins_irrefl]
  | some stored =>
    cases hw : lwwWins op.timestamp op.clientId stored.lastModified stored.lastModifiedClient <;>
      simp [cardDeletedMergeStep, cardDeletedWriteRow, hw, lwwWins_irrefl]

/-- The effect of `handleCardBookmarkedOperation` on the row at its key. -/
def cardBookmarkedMergeStep (op : CardBookmarkedOperation) (s : Nat)
    (cur : Option CardBookmarkedRow) : Option CardBookmarkedRow :=
  match cur with
  | none => some (cardBookmarkedWriteRow op s)
  | some stored =>
    if lwwWins op.timestamp op.clientId stored.lastModified stored.lastModifiedClient then
      some (cardBookmarkedWriteRow op s)
    else some stored

lemma handleCardBookmarked_lookup (op : CardBookmarkedOperation) (db : DB) (s : Nat)
    (k : String) :
    (handleCardBookmarkedOperation op db s).cardBookmarked k =
      if k = op.payload.cardId then
        cardBookmarkedMergeStep op s (db.cardBookmarked op.payload.cardId)
      else db.cardBookmarked k := by
  cases h : db.cardBookmarked op.payload.cardId with
  | none =>
    by_cases hk : k = op.payload.cardId <;>
      simp [handleCardBookmarkedOperation, cardBookmarkedMergeStep, h, setTable, hk]
  | some stored =>
    cases hw : lwwWins op.timestamp op.clientId stored.lastModified stored.lastModifiedClient <;>
      by_cases hk : k = op.payload.cardId <;>
        simp [handleCardBookmarkedOperation, cardBookmarkedMergeStep, h, hw, setTable, hk]

lemma handleCardBookmarked_frame (op : CardBookmarkedOperation) (db : DB) (s : Nat) :
    (handleCardBookmarkedOperation op db s).users = db.users ∧
    (handleCardBookmarkedOperation op db s).cards = db.cards ∧
    (handleCardBookmarkedOperation op db s).reviewLogs = db.reviewLogs ∧
    (handleCardBookmarkedOperation op db s).reviewLogDeleted = db.reviewLogDeleted ∧
    (handleCardBookmarkedOperation op db s).cardContents = db.cardContents ∧
    (handleCardBookmarkedOperation op db s).cardDeleted = db.cardDeleted ∧
    (handleCardBookmarkedOperation op db s).cardSuspended = db.cardSuspended ∧
    (handleCardBookmarkedOperation op db s).decks = db.decks ∧
    (handleCardBookmarkedOperation op db s).cardDecks = db.cardDecks := by
  cases h : db.cardBookmarked op.payload.cardId with
  | none => simp [handleCardBookmarkedOperation, h]
  | some stored =>
    cases hw : lwwWins op.timestamp op.clientId stored.lastModified stored.lastModifiedClient <;>
      simp [handleCardBookmarkedOperation, h, hw]

lemma cardBookmarkedMergeStep_idem (op : CardBookmarkedOperation) (s s' : Nat)
    (cur : Option CardBookmarkedRow) :
    cardBookmarkedMergeStep op s' (cardBookmarkedMergeStep op s cur) =
      cardBookmarkedMergeStep op s cur := by
  cases cur with
  | none => simp [cardBookmarkedMergeStep, cardBookmarkedWriteRow, lwwWins_irrefl]
  | some stored =>
    cases hw : lwwWins op.timestamp op.clientId stored.lastModified stored.lastModifiedClient <;>
      simp [cardBookmarkedMergeStep, cardBookmarkedWriteRow, hw, lwwWins_irrefl]

/-- The effect of `handleCardSuspendedOperation` on the row at its key. -/
def cardSuspendedMergeStep (op : CardSuspendedOperation) (s : Nat)
    (cur : Option CardSuspendedRow) : Option CardSuspendedRow :=
  match cur with
  | none => some (cardSuspendedWriteRow op s)
  | some stored =>
    if lwwWins op.timestamp op.clientId stored.lastModified stored.lastModifiedClient then
      some (cardSuspendedWriteRow op s)
    else some stored

lemma handleCardSuspended_lookup (op : CardSuspendedOperation) (db : DB) (s : Nat)
    (k : String) :
    (handleCardSuspendedOperation op db s).cardSuspended k =
      if k = op.payload.cardId then
        cardSuspendedMergeStep op s (db.cardSuspended op.payload.cardId)
      else db.cardSuspended k := by
  cases h : db.cardSuspended op.payload.cardId with
  | none =>
    by_cases hk : k = op.payload.cardId <;>
      simp [handleCardSuspendedOperation, cardSuspendedMergeStep, h, setTable, hk]
  | some stored =>
    cases hw : lwwWins op.timestamp op.clientId stored.lastModified stored.lastModifiedClient <;>
      by_cases hk : k = op.payload.cardId <;>
        simp [handleCardSuspendedOperation, cardSuspendedMergeStep, h, hw, setTable, hk]

lemma handleCardSuspended_frame (op : CardSuspendedOperation) (db : DB) (s : Nat) :
    (handleCardSuspendedOperation op db s).users = db.users ∧
    (handleCardSuspendedOperation op db s).cards = db.cards ∧
    (handleCardSuspendedOperation op db s).reviewLogs = db.reviewLogs ∧
    (handleCardSuspendedOperation op db s).reviewLogDeleted = db.reviewLogDeleted ∧
    (handleCardSuspendedOperation op db s).cardContents = db.cardContents ∧
    (handleCardSuspendedOperation op db s).cardDeleted = db.cardDeleted ∧
    (handleCardSuspendedOperation op db s).cardBookmarked = db.cardBookmarked ∧
    (handleCardSuspendedOperation op db s).decks = db.decks ∧
    (handleCardSuspendedOperation op db s).cardDecks = db.cardDecks := by
  cases h : db.cardSuspended op.payload.cardId with
  | none => simp [handleCardSuspendedOperation, h]
  | some stored =>
    cases hw : lwwWins op.timestamp op.clientId stored.lastModified stored.lastModifiedClient <;>
      simp [handleCardSuspendedOperation, h, hw]

lemma cardSuspendedMergeStep_idem (op : CardSuspendedOperation) (s s' : Nat)
    (cur : Option CardSuspendedRow) :
    cardSuspendedMergeStep op s' (cardSuspendedMergeStep op s cur) =
      cardSuspendedMergeStep op s cur := by
  cases cur with
  | none => simp [cardSuspendedMergeStep, cardSuspendedWriteRow, lwwWins_irrefl]
  | some stored =>
    cases hw : lwwWins op.timestamp op.clientId stored.lastModified stored.lastModifiedClient <;>
      simp [cardSuspendedMergeStep, cardSuspendedWriteRow, hw, lwwWins_irrefl]

/-- The effect of `handleDeckOperation` on the row at its key. -/
def deckMergeStep (op : DeckOperation) (s : Nat) (cur : Option DeckRow) : Option DeckRow :=
  match cur with
  | none => some (deckInsertRow op s)
  | some stored =>
    if lwwWins op.timestamp op.clientId stored.lastModified stored.lastModifiedClient then
      some (deckUpdateRow op stored s)
    else some stored

lemma handleDeck_lookup (op : DeckOperation) (db : DB) (s : Nat) (k : String) :
    (handleDeckOperation op db s).decks k =
      if k = op.payload.id then deckMergeStep op s (db.decks op.payload.id)
      else db.decks k := by
  cases h : db.decks op.payload.id with
  | none =>
    by_cases hk : k = op.payload.id <;>
      simp [handleDeckOperation, deckMergeStep, h, setTable, hk]
  | some stored =>
    cases hw : lwwWins op.timestamp op.clientId stored.lastModified stored.lastModifiedClient <;>
      by_cases hk : k = op.payload.id <;>
        simp [handleDeckOperation, deckMergeStep, h, hw, setTable, hk]

lemma handleDeck_frame (op : DeckOperation) (db : DB) (s : Nat) :
    (handleDeckOperation op db s).users = db.users ∧
    (handleDeckOperation op db s).cards = db.cards ∧
    (handleDeckOperation op db s).reviewLogs = db.reviewLogs ∧
    (handleDeckOperation op db s).reviewLogDeleted = db.reviewLogDeleted ∧
    (handleDeckOperation op db s).cardContents = db.cardContents ∧
    (handleDeckOperation op db s).cardDeleted = db.cardDeleted ∧
    (handleDeckOperation op db s).cardBookmarked = db.cardBookmarked ∧
    (handleDeckOperation op db s).cardSuspended = db.cardSuspended ∧
    (handleDeckOperation op db s).cardDecks = db.cardDecks := by
  cases h : db.decks op.payload.id with
  | none => simp [handleDeckOperation, h]
  | some stored =>
    cases hw : lwwWins op.timestamp op.clientId stored.lastModified stored.lastModifiedClient <;>
      simp [handleDeckOperation, h, hw]

lemma deckMergeStep_idem (op : DeckOperation) (s s' : Nat) (cur : Option DeckRow) :
    deckMergeStep op s' (deckMergeStep op s cur) = deckMergeStep op s cur := by
  cases cur with
  | none => simp [deckMergeStep, deckInsertRow, lwwWins_irrefl]
  | some stored =>
    cases hw : lwwWins op.timestamp op.clientId stored.lastModified stored.lastModifiedClient <;>
      simp [deckMergeStep, deckUpdateRow, hw, lwwWins_irrefl]

/-- The effect of `handleUpdateDeckCardOperation` on the row at its key. -/
def cardDeckMergeStep (op : UpdateDeckCardOperation) (s : Nat)
    (cur : Option CardDeckRow) : Option CardDeckRow :=
  match cur with
  | none => some (cardDeckWriteRow op s)
  | some stored =>
    if decide (stored.clCount < op.payload.clCount) then some (cardDeckWriteRow op s)
    else some stored

lemma handleUpdateDeckCard_lookup (op : UpdateDeckCardOperation) (db : DB) (s : Nat)
    (k : String × String) :
    (handleUpdateDeckCardOperation op db s).cardDecks k =
      if k = (op.payload.cardId, op.payload.deckId) then
        cardDeckMergeStep op s (db.cardDecks (op.payload.cardId, op.payload.deckId))
      else db.cardDecks k := by
  cases h : db.cardDecks (op.payload.cardId, op.payload.deckId) with
  | none =>
    by_cases hk : k = (op.payload.cardId, op.payload.deckId) <;>
      simp [handleUpdateDeckCardOperation, cardDeckMergeStep, h, setTable, hk]
  | some stored =>
    cases hw : decide (stored.clCount < op.payload.clCount) <;>
      by_cases hk : k = (op.payload.cardId, op.payload.deckId) <;>
        simp [handleUpdateDeckCardOperation, cardDeckMergeStep, h, hw, setTable, hk]

lemma handleUpdateDeckCard_frame (op : UpdateDeckCardOperation) (db : DB) (s : Nat) :
    (handleUpdateDeckCardOperation op db s).users = db.users ∧
    (handleUpdateDeckCardOperation op db s).cards = db.cards ∧
    (handleUpdateDeckCardOperation op db s).reviewLogs = db.reviewLogs ∧
    (handleUpdateDeckCardOperation op db s).reviewLogDeleted = db.reviewLogDeleted ∧
    (handleUpdateDeckCardOperation op db s).cardContents = db.cardContents ∧
    (handleUpdateDeckCardOperation op db s).cardDeleted = db.cardDeleted ∧
    (handleUpdateDeckCardOperation op db s).cardBookmarked = db.cardBookmarked ∧
    (handleUpdateDeckCardOperation op db s).cardSuspended = db.cardSuspended ∧
    (handleUpdateDeckCardOperation op db s).decks = db.decks := by
  cases h : db.cardDecks (op.payload.cardId, op.payload.deckId) with
  | none => simp [handleUpdateDeckCardOperation, h]
  | some stored =>
    cases hw : decide (stored.clCount < op.payload.clCount) <;>
      simp [handleUpdateDeckCardOperation, h, hw]

lemma cardDeckMergeStep_idem (op : UpdateDeckCardOperation) (s s' : Nat)
    (cur : Option CardDeckRow) :
    cardDeckMergeStep op s' (cardDeckMergeStep op s cur) = cardDeckMergeStep op s cur := by
  cases cur with
  | none => simp [cardDeckMergeStep, cardDeckWriteRow]
  | some stored =>
    by_cases hw : stored.clCount < op.payload.clCount
    · simp [cardDeckMergeStep, cardDeckWriteRow, hw]
    · simp [cardDeckMergeStep, hw]

/-- The body of the `switch` in `handleClientOperation`, as a function of the
already-reserved sequence number (proof device: `handleClientOperation` is
proved equal to reservation followed by this dispatch). -/
def runHandler (op : Operation) (db : DB) (s : Nat) : DB :=
  match op with
  | .card o => handleCardOperation o db s
  | .reviewLog o => handleReviewLogOperation o db s
  | .reviewLogDeleted o => handleReviewLogDeletedOperation o db s
  | .cardContent o => handleCardContentOperation o db s
  | .cardDeleted o => handleCardDeletedOperation o db s
  | .cardBookmarked o => handleCardBookmarkedOperation o db s
  | .cardSuspended o => handleCardSuspendedOperation o db s
  | .deck o => handleDeckOperation o db s
  | .updateDeckCard o => handleUpdateDeckCardOperation o db s

lemma handleClientOperation_eq (op : Operation) (db : DB) :
    handleClientOperation op db =
      match db.users op.userId with
      | none => Except.error "Failed to reserve sequence number"
      | some s0 =>
        Except.ok
          (runHandler op { db with users := setTable db.users op.userId (s0 + 1) } s0) := by
  cases hu : db.users op.userId with
  | none =>
    cases op <;> simp_all [handleClientOperation, reserveSeqNo, Operation.userId]
  | some s0 =>
    cases op <;> simp_all [handleClientOperation, reserveSeqNo, Operation.userId, runHandler]

lemma runHandler_users (op : Operation) (db : DB) (s : Nat) :
    (runHandler op db s).users = db.users := by
  cases op with
  | card o => exact (handleCard_frame o db s).1
  | reviewLog o => exact (handleReviewLog_frame o db s).1
  | reviewLogDeleted o => exact (handleReviewLogDeleted_frame o db s).1
  | cardContent o => exact (handleCardContent_frame o db s).1
  | cardDeleted o => exact (handleCardDeleted_frame o db s).1
  | cardBookmarked o => exact (handleCardBookmarked_frame o db s).1
  | cardSuspended o => exact (handleCardSuspended_frame o db s).1
  | deck o => exact (handleDeck_frame o db s).1
  | updateDeckCard o => exact (handleUpdateDeckCard_frame o db s).1

/-- Equality of the nine operation-target tables (everything except the
`users` sequence counter). -/
def sameStoredTables (a b : DB) : Prop :=
  a.cards = b.cards ∧ a.reviewLogs = b.reviewLogs ∧
  a.reviewLogDeleted = b.reviewLogDeleted ∧ a.cardContents = b.cardContents ∧
  a.cardDeleted = b.cardDeleted ∧ a.cardBookmarked = b.cardBookmarked ∧
  a.cardSuspended = b.cardSuspended ∧ a.decks = b.decks ∧ a.cardDecks = b.cardDecks

lemma sameStoredTables_of_eq {a b : DB} (h : a = b) : sameStoredTables a b := by
  subst h
  exact ⟨rfl, rfl, rfl, rfl, rfl, rfl, rfl, rfl, rfl⟩

lemma sameStoredTables_trans {a b c : DB}
    (h1 : sameStoredTables a b) (h2 : sameStoredTables b c) : sameStoredTables a c := by
  obtain ⟨a1, a2, a3, a4, a5, a6, a7, a8, a9⟩ := h1
  obtain ⟨b1, b2, b3, b4, b5, b6, b7, b8, b9⟩ := h2
  exact ⟨a1.trans b1, a2.trans b2, a3.trans b3, a4.trans b4, a5.trans b5,
    a6.trans b6, a7.trans b7, a8.trans b8, a9.trans b9⟩

lemma cards_stable (o : CardOperation) (d d1 : DB) (s s' : Nat)
    (hc : d1.cards = (handleCardOperation o d s).cards) :
    (handleCardOperation o d1 s').cards = d1.cards := by
  funext k
  rw [handleCard_lookup]
  by_cases hk : k = o.payload.id
  · subst hk
    rw [if_pos rfl, hc, handleCard_lookup o d s, if_pos rfl]
    exact cardMergeStep_idem o s s' (d.cards o.payload.id)
  · rw [if_neg hk]

lemma reviewLogs_stable (o : ReviewLogOperation) (d d1 : DB) (s s' : Nat)
    (hc : d1.reviewLogs = (handleReviewLogOperation o d s).reviewLogs) :
    (handleReviewLogOperation o d1 s').reviewLogs = d1.reviewLogs := by
  funext k
  rw [handleReviewLog_lookup]
  by_cases hk : k = o.payload.id
  · subst hk
    rw [if_pos rfl, hc, handleReviewLog_lookup o d s, if_pos rfl]
    exact reviewLogMergeStep_idem o s s' (d.reviewLogs o.payload.id)
  · rw [if_neg hk]

lemma reviewLogDeleted_stable (o : ReviewLogDeletedOperation) (d d1 : DB) (s s' : Nat)
    (hc : d1.reviewLogDeleted = (handleReviewLogDeletedOperation o d s).reviewLogDeleted) :
    (handleReviewLogDeletedOperation o d1 s').reviewLogDeleted = d1.reviewLogDeleted := by
  funext k
  rw [handleReviewLogDeleted_lookup]
  by_cases hk : k = o.payload.reviewLogId
  · subst hk
    rw [if_pos rfl, hc, handleReviewLogDeleted_lookup o d s, if_pos rfl]
    exact reviewLogDeletedMergeStep_idem o s s' (d.reviewLogDeleted o.payload.reviewLogId)
  · rw [if_neg hk]

lemma cardContents_stable (o : CardContentOperation) (d d1 : DB) (s s' : Nat)
    (hc : d1.cardContents = (handleCardContentOperation o d s).cardContents) :
    (handleCardContentOperation o d1 s').cardContents = d1.cardContents := by
  funext k
  rw [handleCardContent_lookup]
  by_cases hk : k = o.payload.cardId
  · subst hk
    rw [if_pos rfl, hc, handleCardContent_lookup o d s, if_pos rfl]
    exact cardContentMergeStep_idem o s s' (d.cardContents o.payload.cardId)
  · rw [if_neg hk]

lemma cardDeleted_stable (o : CardDeletedOperation) (d d1 : DB) (s s' : Nat)
    (hc : d1.cardDeleted = (handleCardDeletedOperation o d s).cardDeleted) :
    (handleCardDeletedOperation o d1 s').cardDeleted = d1.cardDeleted := by
  funext k
  rw [handleCardDeleted_lookup]
  by_cases hk : k = o.payload.cardId
  · subst hk
    rw [if_pos rfl, hc, handleCardDeleted_lookup o d s, if_pos rfl]
    exact cardDeletedMergeStep_idem o s s' (d.cardDeleted o.payload.cardId)
  · rw [if_neg hk]

lemma cardBookmarked_stable (o : CardBookmarkedOperation) (d d1 : DB) (s s' : Nat)
    (hc : d1.cardBookmarked = (handleCardBookmarkedOperation o d s).cardBookmarked) :
    (handleCardBookmarkedOperation o d1 s').cardBookmarked = d1.cardBookmarked := by
  funext k
  rw [handleCardBookmarked_lookup]
  by_cases hk : k = o.payload.cardId
  · subst hk
    rw [if_pos rfl, hc, handleCardBookmarked_lookup o d s, if_pos rfl]
    exact cardBookmarkedMergeStep_idem o s s' (d.cardBookmarked o.payload.cardId)
  · rw [if_neg hk]

lemma cardSuspended_stable (o : CardSuspendedOperation) (d d1 : DB) (s s' : Nat)
    (hc : d1.cardSuspended = (handleCardSuspendedOperation o d s).cardSuspended) :
    (handleCardSuspendedOperation o d1 s').cardSuspended = d1.cardSuspended := by
  funext k
  rw [handleCardSuspended_lookup]
  by_cases hk : k = o.payload.cardId
  · subst hk
    rw [if_pos rfl, hc, handleCardSuspended_lookup o d s, if_pos rfl]
    exact cardSuspendedMergeStep_idem o s s' (d.cardSuspended o.payload.cardId)
  · rw [if_neg hk]

lemma decks_stable (o : DeckOperation) (d d1 : DB) (s s' : Nat)
    (hc : d1.decks = (handleDeckOperation o d s).decks) :
    (handleDeckOperation o d1 s').decks = d1.decks := by
  funext k
  rw [handleDeck_lookup]
  by_cases hk : k = o.payload.id
  · subst hk
    rw [if_pos rfl, hc, handleDeck_lookup o d s, if_pos rfl]
    exact deckMergeStep_idem o s s' (d.decks o.payload.id)
  · rw [if_neg hk]

lemma cardDecks_stable (o : UpdateDeckCardOperation) (d d1 : DB) (s s' : Nat)
    (hc : d1.cardDecks = (handleUpdateDeckCardOperation o d s).cardDecks) :
    (handleUpdateDeckCardOperation o d1 s').cardDecks = d1.cardDecks := by
  funext k
  rw [handleUpdateDeckCard_lookup]
  by_cases hk : k = (o.payload.cardId, o.payload.deckId)
  · subst hk
    rw [if_pos rfl, hc, handleUpdateDeckCard_lookup o d s, if_pos rfl]
    exact cardDeckMergeStep_idem o s s' (d.cardDecks (o.payload.cardId, o.payload.deckId))
  · rw [if_neg hk]

lemma runHandler_replay (op : Operation) (d d1 : DB) (s s' : Nat)
    (h : sameStoredTables d1 (runHandler op d s)) :
    sameStoredTables (runHandler op d1 s') d1 := by
  obtain ⟨h1, h2, h3, h4, h5, h6, h7, h8, h9⟩ := h
  cases op with
  | card o =>
    obtain ⟨_, F2, F3, F4, F5, F6, F7, F8, F9⟩ := handleCard_frame o d1 s'
    exact ⟨cards_stable o d d1 s s' h1, F2, F3, F4, F5, F6, F7, F8, F9⟩
  | reviewLog o =>
    obtain ⟨_, F2, F3, F4, F5, F6, F7, F8, F9⟩ := handleReviewLog_frame o d1 s'
    exact ⟨F2, reviewLogs_stable o d d1 s s' h2, F3, F4, F5, F6, F7, F8, F9⟩
  | reviewLogDeleted o =>
    obtain ⟨_, F2, F3, F4, F5, F6, F7, F8, F9⟩ := handleReviewLogDeleted_frame o d1 s'
    exact ⟨F2, F3, reviewLogDeleted_stable o d d1 s s' h3, F4, F5, F6, F7, F8, F9⟩
  | cardContent o =>
    obtain ⟨_, F2, F3, F4, F5, F6, F7, F8, F9⟩ := handleCardContent_frame o d1 s'
    exact ⟨F2, F3, F4, cardContents_stable o d d1 s s' h4, F5, F6, F7, F8, F9⟩
  | cardDeleted o =>
    obtain ⟨_, F2, F3, F4, F5, F6, F7, F8, F9⟩ := handleCardDeleted_frame o d1 s'
    exact ⟨F2, F3, F4, F5, cardDeleted_stable o d d1 s s' h5, F6, F7, F8, F9⟩
  | cardBookmarked o =>
    obtain ⟨_, F2, F3, F4, F5, F6, F7, F8, F9⟩ := handleCardBookmarked_frame o d1 s'
    exact ⟨F2, F3, F4, F5, F6, cardBookmarked_stable o d d1 s s' h6, F7, F8, F9⟩
  | cardSuspended o =>
    obtain ⟨_, F2, F3, F4, F5, F6, F7, F8, F9⟩ := handleCardSuspended_frame o d1 s'
    exact ⟨F2, F3, F4, F5, F6, F7, cardSuspended_stable o d d1 s s' h7, F8, F9⟩
  | deck o =>
    obtain ⟨_, F2, F3, F4, F5, F6, F7, F8, F9⟩ := handleDeck_frame o d1 s'
    exact ⟨F2, F3, F4, F5, F6, F7, F8, decks_stable o d d1 s s' h8, F9⟩
  | updateDeckCard o =>
    obtain ⟨_, F2, F3, F4, F5, F6, F7, F8, F9⟩ := handleUpdateDeckCard_frame o d1 s'
    exact ⟨F2, F3, F4, F5, F6, F7, F8, F9, cardDecks_stable o d d1 s s' h9⟩

/-- C7: after an operation has been successfully applied through
`handleClientOperation`, applying it a second time succeeds and leaves all
nine stored tables — hence the targeted stored row, including its `seqNo`,
`lastModified` and `lastModifiedClient` metadata — completely unchanged,
even though the second application is given a fresh, larger sequence
number. -/
theorem replay_safety (op : Operation) (db db1 : DB)
    (h1 : handleClientOperation op db = .ok db1) :
    (∃ db2, handleClientOperation op db1 = .ok db2) ∧
    (∀ db2, handleClientOperation op db1 = .ok db2 → sameStoredTables db2 db1) := by
  rw [handleClientOperation_eq] at h1
  cases hu : db.users op.userId with
  | none =>
    rw [hu] at h1
    exact absurd h1 (by simp)
  | some s0 =>
    rw [hu] at h1
    simp only [Except.ok.injEq] at h1
    have hu1 : db1.users op.userId = some (s0 + 1) := by
      rw [← h1, runHandler_users]
      exact setTable_self _ _ _
    constructor
    · exact ⟨runHandler op { db1 with users := setTable db1.users op.userId (s0 + 1 + 1) }
        (s0 + 1), by rw [handleClientOperation_eq, hu1]⟩
    · intro db2 h2
      rw [handleClientOperation_eq, hu1] at h2
      simp only [Except.ok.injEq] at h2
      rw [← h2]
      have hsame : sameStoredTables
          { db1 with users := setTable db1.users op.userId (s0 + 1 + 1) }
          (runHandler op { db with users := setTable db.users op.userId (s0 + 1) } s0) := by
        rw [← h1]
        exact ⟨rfl, rfl, rfl, rfl, rfl, rfl, rfl, rfl, rfl⟩
      refine sameStoredTables_trans
        (runHandler_replay op _ _ s0 (s0 + 1) hsame) ?_
      rw [← h1]
      exact ⟨rfl, rfl, rfl, rfl, rfl, rfl, rfl, rfl, rfl⟩

/-- The database produced by applying `cardOpA` once to a fresh user. -/
def replayDB1 : DB :=
  extractOk (handleClientOperation (Operation.card cardOpA) (userDB "u1" 1)) emptyDB

/-- The database produced by replaying `cardOpA` on `replayDB1`. -/
def replayDB2 : DB :=
  extractOk (handleClientOperation (Operation.card cardOpA) replayDB1) emptyDB

/-- Witness for C7: replaying the concrete card operation succeeds and
changes none of the stored tables. -/
theorem replay_safety_witness :
    handleClientOperation (Operation.card cardOpA) replayDB1 = .ok replayDB2 ∧
    sameStoredTables replayDB2 replayDB1 :=
  ⟨rfl,
   (replay_safety (Operation.card cardOpA) (userDB "u1" 1) replayDB1 rfl).2 replayDB2 rfl⟩

lemma dispatchCase_none_iff (t : String) :
    dispatchCase t = none ↔ ¬ t ∈ operationTypes := by
  unfold dispatchCase
  split_ifs with h1 h2 h3 h4 h5 h6 h7 h8 h9 <;>
    simp_all [operationTypes]

/-- C9: the dispatcher of `handleClientOperation` is exhaustive over the
closed discriminator set: the `switch` reaches its `default` (error) branch
exactly for discriminator strings outside the nine-element set, each of the
nine case labels selects its own handler, and at the typed level each
member of the `Operation` union is routed to exactly its matching handler
with the reserved sequence number. -/
theorem dispatch_exhaustive_spec :
    (∀ t : String, dispatchCase t = none ↔ ¬ t ∈ operationTypes) ∧
    (dispatchCase "card" = some HandlerKind.card ∧
     dispatchCase "reviewLog" = some HandlerKind.reviewLog ∧
     dispatchCase "reviewLogDeleted" = some HandlerKind.reviewLogDeleted ∧
     dispatchCase "cardContent" = some HandlerKind.cardContent ∧
     dispatchCase "cardDeleted" = some HandlerKind.cardDeleted ∧
     dispatchCase "cardBookmarked" = some HandlerKind.cardBookmarked ∧
     dispatchCase "cardSuspended" = some HandlerKind.cardSuspended ∧
     dispatchCase "deck" = some HandlerKind.deck ∧
     dispatchCase "updateDeckCard" = some HandlerKind.updateDeckCard) ∧
    (∀ (o : CardOperation) (db : DB) (s : Nat) (db' : DB),
      reserveSeqNo o.userId db 1 = .ok (s, db') →
      handleClientOperation (Operation.card o) db = .ok (handleCardOperation o db' s)) ∧
    (∀ (o : ReviewLogOperation) (db : DB) (s : Nat) (db' : DB),
      reserveSeqNo o.userId db 1 = .ok (s, db') →
      handleClientOperation (Operation.reviewLog o) db =
        .ok (handleReviewLogOperation o db' s)) ∧
    (∀ (o : ReviewLogDeletedOperation) (db : DB) (s : Nat) (db' : DB),
      reserveSeqNo o.userId db 1 = .ok (s, db') →
      handleClientOperation (Operation.reviewLogDeleted o) db =
        .ok (handleReviewLogDeletedOperation o db' s)) ∧
    (∀ (o : CardContentOperation) (db : DB) (s : Nat) (db' : DB),
      reserveSeqNo o.userId db 1 = .ok (s, db') →
      handleClientOperation (Operation.cardContent o) db =
        .ok (handleCardContentOperation o db' s)) ∧
    (∀ (o : CardDeletedOperation) (db : DB) (s : Nat) (db' : DB),
      reserveSeqNo o.userId db 1 = .ok (s, db') →
      handleClientOperation (Operation.cardDeleted o) db =
        .ok (handleCardDeletedOperation o db' s)) ∧
    (∀ (o : CardBookmarkedOperation) (db : DB) (s : Nat) (db' : DB),
      reserveSeqNo o.userId db 1 = .ok (s, db') →
      handleClientOperation (Operation.cardBookmarked o) db =
        .ok (handleCardBookmarkedOperation o db' s)) ∧
    (∀ (o : CardSuspendedOperation) (db : DB) (s : Nat) (db' : DB),
      reserveSeqNo o.userId db 1 = .ok (s, db') →
      handleClientOperation (Operation.cardSuspended o) db =
        .ok (handleCardSuspendedOperation o db' s)) ∧
    (∀ (o : DeckOperation) (db : DB) (s : Nat) (db' : DB),
      reserveSeqNo o.userId db 1 = .ok (s, db') →
      handleClientOperation (Operation.deck o) db = .ok (handleDeckOperation o db' s)) ∧
    (∀ (o : UpdateDeckCardOperation) (db : DB) (s : Nat) (db' : DB),
      reserveSeqNo o.userId db 1 = .ok (s, db') →
      handleClientOperation (Operation.updateDeckCard o) db =
        .ok (handleUpdateDeckCardOperation o db' s)) := by
  refine ⟨dispatchCase_none_iff, ⟨rfl, rfl, rfl, rfl, rfl, rfl, rfl, rfl, rfl⟩,
    ?_, ?_, ?_, ?_, ?_, ?_, ?_, ?_, ?_⟩ <;>
    (intro o db s db' h
     simp only [handleClientOperation, Operation.userId, h])

/-- The post-reservation database for the C9 witness. -/
def reservedUserDB : DB :=
  { userDB "u1" 1 with users := setTable (userDB "u1" 1).users "u1" (1 + 1) }

/-- Witness for C9: a concrete card operation is routed to
`handleCardOperation`, and a discriminator outside the closed set reaches
the `default` branch. -/
theorem dispatch_exhaustive_spec_witness :
    handleClientOperation (Operation.card cardOpA) (userDB "u1" 1) =
      .ok (handleCardOperation cardOpA reservedUserDB 1) ∧
    dispatchCase "cardMoved" = none :=
  ⟨dispatch_exhaustive_spec.2.2.1 cardOpA (userDB "u1" 1) 1 reservedUserDB rfl,
   (dispatch_exhaustive_spec.1 "cardMoved").mpr (by decide)⟩

/-- C10: `handleClientOperation` reserves the sequence number before
inspecting the operation: on every call whose reservation succeeds the
user's `nextSeqNo` is incremented by exactly one (no handler touches the
`users` table), a missing user row fails identically for every operation
kind before any table is touched, and on the wire-level dispatch path of an
unknown discriminator the burned sequence number is the only state change —
the `default` branch throws with all nine stored tables untouched. -/
theorem seqNo_reserved_first :
    (∀ (op : Operation) (db : DB) (s : Nat), db.users op.userId = some s →
      Except.map (fun d => d.users op.userId) (handleClientOperation op db) =
        .ok (some (s + 1))) ∧
    (∀ (op : Operation) (db : DB), db.users op.userId = none →
      handleClientOperation op db = .error "Failed to reserve sequence number") ∧
    (∀ (u t : String) (db : DB) (s : Nat), ¬ t ∈ operationTypes →
      db.users u = some s →
      (handleClientOperationWire u t db).1.users u = some (s + 1) ∧
      sameStoredTables (handleClientOperationWire u t db).1 db ∧
      (handleClientOperationWire u t db).2.isSome = true) := by
  refine ⟨fun op db s hu => ?_, fun op db hu => ?_, fun u t db s ht hu => ?_⟩
  · rw [handleClientOperation_eq, hu]
    simp only [Except.map, runHandler_users]
    rw [setTable_self]
  · rw [handleClientOperation_eq, hu]
  · have hd : dispatchCase t = none := (dispatchCase_none_iff t).mpr ht
    unfold handleClientOperationWire reserveSeqNo
    rw [hu, hd]
    exact ⟨setTable_self _ _ _, ⟨rfl, rfl, rfl, rfl, rfl, rfl, rfl, rfl, rfl⟩, rfl⟩

/-- Witness for C10: a successful call bumps `nextSeqNo` from 1 to 2, and an
unknown discriminator burns exactly one sequence number (5 to 6) while
leaving every stored table unchanged. -/
theorem seqNo_reserved_first_witness :
    Except.map (fun d => d.users "u1")
      (handleClientOperation (Operation.card cardOpA) (userDB "u1" 1)) = .ok (some 2) ∧
    (handleClientOperationWire "u1" "cardMoved" (userDB "u1" 5)).1.users "u1" = some 6 ∧
    sameStoredTables (handleClientOperationWire "u1" "cardMoved" (userDB "u1" 5)).1
      (userDB "u1" 5) := by
  have h1 := seqNo_reserved_first.1 (Operation.card cardOpA) (userDB "u1" 1) 1 (by rfl)
  have h3 := seqNo_reserved_first.2.2 "u1" "cardMoved" (userDB "u1" 5) 5 (by decide) (by rfl)
  exact ⟨by simpa using h1, by simpa using h3.1, h3.2.1⟩

lemma cardWrite_meta (op : CardOperation) (db : DB) (s : Nat) (k : String) (r : CardRow)
    (hr : (handleCardOperation op db s).cards k = some r) :
    db.cards k = some r ∨
      (r.seqNo = s ∧ r.lastModified = op.timestamp ∧ r.lastModifiedClient = op.clientId) := by
  rw [handleCard_lookup] at hr
  by_cases hk : k = op.payload.id
  · subst hk
    rw [if_pos rfl] at hr
    cases h : db.cards op.payload.id with
    | none =>
      rw [h] at hr
      simp only [cardMergeStep, Option.some.injEq] at hr
      exact Or.inr (hr ▸ ⟨rfl, rfl, rfl⟩)
    | some stored =>
      rw [h] at hr
      simp only [cardMergeStep] at hr
      by_cases hw : lwwWins op.timestamp op.clientId stored.lastModified
          stored.lastModifiedClient = true
      · rw [if_pos hw] at hr
        simp only [Option.some.injEq] at hr
        exact Or.inr (hr ▸ ⟨rfl, rfl, rfl⟩)
      · rw [if_neg hw] at hr
        exact Or.inl hr
  · rw [if_neg hk] at hr
    exact Or.inl hr

lemma reviewLogWrite_meta (op : ReviewLogOperation) (db : DB) (s : Nat) (k : String)
    (r : ReviewLogRow)
    (hr : (handleReviewLogOperation op db s).reviewLogs k = some r) :
    db.reviewLogs k = some r ∨
      (r.seqNo = s ∧ r.createdAt = op.timestamp ∧ r.lastModifiedClient = op.clientId) := by
  rw [handleReviewLog_lookup] at hr
  by_cases hk : k = op.payload.id
  · subst hk
    rw [if_pos rfl] at hr
    cases h : db.reviewLogs op.payload.id with
    | none =>
      rw [h] at hr
      simp only [reviewLogMergeStep, Option.some.injEq] at hr
      exact Or.inr (hr ▸ ⟨rfl, rfl, rfl⟩)
    | some stored =>
      rw [h] at hr
      simp only [reviewLogMergeStep] at hr
      exact Or.inl hr
  · rw [if_neg hk] at hr
    exact Or.inl hr

lemma reviewLogDeletedWrite_meta (op : ReviewLogDeletedOperation) (db : DB) (s : Nat)
    (k : String) (r : ReviewLogDeletedRow)
    (hr : (handleReviewLogDeletedOperation op db s).reviewLogDeleted k = some r) :
    db.reviewLogDeleted k = some r ∨
      (r.seqNo = s ∧ r.lastModified = op.timestamp ∧ r.lastModifiedClient = op.clientId) := by
  rw [handleReviewLogDeleted_lookup] at hr
  by_cases hk : k = op.payload.reviewLogId
  · subst hk
    rw [if_pos rfl] at hr
    cases h : db.reviewLogDeleted op.payload.reviewLogId with
    | none =>
      rw [h] at hr
      simp only [reviewLogDeletedMergeStep, Option.some.injEq] at hr
      exact Or.inr (hr ▸ ⟨rfl, rfl, rfl⟩)
    | some stored =>
      rw [h] at hr
      simp only [reviewLogDeletedMergeStep] at hr
      by_cases hw : lwwWins op.timestamp op.clientId stored.lastModified
          stored.lastModifiedClient = true
      · rw [if_pos hw] at hr
        simp only [Option.some.injEq] at hr
        exact Or.inr (hr ▸ ⟨rfl, rfl, rfl⟩)
      · rw [if_neg hw] at hr
        exact Or.inl hr
  · rw [if_neg hk] at hr
    exact Or.inl hr

lemma cardContentWrite_meta (op : CardContentOperation) (db : DB) (s : Nat)
    (k : String) (r : CardContentRow)
    (hr : (handleCardContentOperation op db s).cardContents k = some r) :
    db.cardContents k = some r ∨
      (r.seqNo = s ∧ r.lastModified = op.timestamp ∧ r.lastModifiedClient = op.clientId) := by
  rw [handleCardContent_lookup] at hr
  by_cases hk : k = op.payload.cardId
  · subst hk
    rw [if_pos rfl] at hr
    cases h : db.cardContents op.payload.cardId with
    | none =>
      rw [h] at hr
      simp only [cardContentMergeStep, Option.some.injEq] at hr
      exact Or.inr (hr ▸ ⟨rfl, rfl, rfl⟩)
    | some stored =>
      rw [h] at hr
      simp only [cardContentMergeStep] at hr
      by_cases hw : lwwWins op.timestamp op.clientId stored.lastModified
          stored.lastModifiedClient = true
      · rw [if_pos hw] at hr
        simp only [Option.some.injEq] at hr
        exact Or.inr (hr ▸ ⟨rfl, rfl, rfl⟩)
      · rw [if_neg hw] at hr
        exact Or.inl hr
  · rw [if_neg hk] at hr
    exact Or.inl hr

lemma cardDeletedWrite_meta (op : CardDeletedOperation) (db : DB) (s : Nat)
    (k : String) (r : CardDeletedRow)
    (hr : (handleCardDeletedOperation op db s).cardDeleted k = some r) :
    db.cardDeleted k = some r ∨
      (r.seqNo = s ∧ r.lastModified = op.timestamp ∧ r.lastModifiedClient = op.clientId) := by
  rw [handleCardDeleted_lookup] at hr
  by_cases hk : k = op.payload.cardId
  · subst hk
    rw [if_pos rfl] at hr
    cases h : db.cardDeleted op.payload.cardId with
    | none =>
      rw [h] at hr
      simp only [cardDeletedMergeStep, Option.some.injEq] at hr
      exact Or.inr (hr ▸ ⟨rfl, rfl, rfl⟩)
    | some stored =>
      rw [h] at hr
      simp only [cardDeletedMergeStep] at hr
      by_cases hw : lwwWins op.timestamp op.clientId stored.lastModified
          stored.lastModifiedClient = true
      · rw [if_pos hw] at hr
        simp only [Option.some.injEq] at hr
        exact Or.inr (hr ▸ ⟨rfl, rfl, rfl⟩)
      · rw [if_neg hw] at hr
        exact Or.inl hr
  · rw [if_neg hk] at hr
    exact Or.inl hr

lemma cardBookmarkedWrite_meta (op : CardBookmarkedOperation) (db : DB) (s : Nat)
    (k : String) (r : CardBookmarkedRow)
    (hr : (handleCardBookmarkedOperation op db s).cardBookmarked k = some r) :
    db.cardBookmarked k = some r ∨
      (r.seqNo = s ∧ r.lastModified = op.timestamp ∧ r.lastModifiedClient = op.clientId) := by
  rw [handleCardBookmarked_lookup] at hr
  by_cases hk : k = op.payload.cardId
  · subst hk
    rw [if_pos rfl] at hr
    cases h : db.cardBookmarked op.payload.cardId with
    | none =>
      rw [h] at hr
      simp only [cardBookmarkedMergeStep, Option.some.injEq] at hr
      exact Or.inr (hr ▸ ⟨rfl, rfl, rfl⟩)
    | some stored =>
      rw [h] at hr
      simp only [cardBookmarkedMergeStep] at hr
      by_cases hw : lwwWins op.timestamp op.clientId stored.lastModified
          stored.lastModifiedClient = true
      · rw [if_pos hw] at hr
        simp only [Option.some.injEq] at hr
        exact Or.inr (hr ▸ ⟨rfl, rfl, rfl⟩)
      · rw [if_neg hw] at hr
        exact Or.inl hr
  · rw [if_neg hk] at hr
    exact Or.inl hr

lemma cardSuspendedWrite_meta (op : CardSuspendedOperation) (db : DB) (s : Nat)
    (k : String) (r : CardSuspendedRow)
    (hr : (handleCardSuspendedOperation op db s).cardSuspended k = some r) :
    db.cardSuspended k = some r ∨
      (r.seqNo = s ∧ r.lastModified = op.timestamp ∧ r.lastModifiedClient = op.clientId) := by
  rw [handleCardSuspended_lookup] at hr
  by_cases hk : k = op.payload.cardId
  · subst hk
    rw [if_pos rfl] at hr
    cases h : db.cardSuspended op.payload.cardId with
    | none =>
      rw [h] at hr
      simp only [cardSuspendedMergeStep, Option.some.injEq] at hr
      exact Or.inr (hr ▸ ⟨rfl, rfl, rfl⟩)
    | some stored =>
      rw [h] at hr
      simp only [cardSuspendedMergeStep] at hr
      by_cases hw : lwwWins op.timestamp op.clientId stored.lastModified
          stored.lastModifiedClient = true
      · rw [if_pos hw] at hr
        simp only [Option.some.injEq] at hr
        exact Or.inr (hr ▸ ⟨rfl, rfl, rfl⟩)
      · rw [if_neg hw] at hr
        exact Or.inl hr
  · rw [if_neg hk] at hr
    exact Or.inl hr

lemma deckWrite_meta (op : DeckOperation) (db : DB) (s : Nat) (k : String) (r : DeckRow)
    (hr : (handleDeckOperation op db s).decks k = some r) :
    db.decks k = some r ∨
      (r.seqNo = s ∧ r.lastModified = op.timestamp ∧ r.lastModifiedClient = op.clientId) := by
  rw [handleDeck_lookup] at hr
  by_cases hk : k = op.payload.id
  · subst hk
    rw [if_pos rfl] at hr
    cases h : db.decks op.payload.id with
    | none =>
      rw [h] at hr
      simp only [deckMergeStep, Option.some.injEq] at hr
      exact Or.inr (hr ▸ ⟨rfl, rfl, rfl⟩)
    | some stored =>
      rw [h] at hr
      simp only [deckMergeStep] at hr
      by_cases hw : lwwWins op.timestamp op.clientId stored.lastModified
          stored.lastModifiedClient = true
      · rw [if_pos hw] at hr
        simp only [Option.some.injEq] at hr
        exact Or.inr (hr ▸ ⟨rfl, rfl, rfl⟩)
      · rw [if_neg hw] at hr
        exact Or.inl hr
  · rw [if_neg hk] at hr
    exact Or.inl hr

lemma cardDeckWrite_meta (op : UpdateDeckCardOperation) (db : DB) (s : Nat)
    (k : String × String) (r : CardDeckRow)
    (hr : (handleUpdateDeckCardOperation op db s).cardDecks k = some r) :
    db.cardDecks k = some r ∨
      (r.seqNo = s ∧ r.lastModified = op.timestamp ∧ r.lastModifiedClient = op.clientId) := by
  rw [handleUpdateDeckCard_lookup] at hr
  by_cases hk : k = (op.payload.cardId, op.payload.deckId)
  · subst hk
    rw [if_pos rfl] at hr
    cases h : db.cardDecks (op.payload.cardId, op.payload.deckId) with
    | none =>
      rw [h] at hr
      simp only [cardDeckMergeStep, Option.some.injEq] at hr
      exact Or.inr (hr ▸ ⟨rfl, rfl, rfl⟩)
    | some stored =>
      rw [h] at hr
      simp only [cardDeckMergeStep] at hr
      by_cases hw : decide (stored.clCount < op.payload.clCount) = true
      · rw [if_pos hw] at hr
        simp only [Option.some.injEq] at hr
        exact Or.inr (hr ▸ ⟨rfl, rfl, rfl⟩)
      · rw [if_neg hw] at hr
        exact Or.inl hr
  · rw [if_neg hk] at hr
    exact Or.inl hr

/-- Counterexample to C3 as stated: the write of `handleReviewLogOperation`
sets no `lastModified` column — the timestamp-derived column it writes is
`createdAt` — so it is false that every handler sets all three of `seqNo`,
`lastModified` and `lastModifiedClient` on every write. -/
theorem reviewLog_write_lacks_lastModified :
    ¬ "lastModified" ∈ reviewLogInsertColumns := by decide

/-- C3 (amended): every write arm of every handler sets `seqNo` and
`lastModifiedClient`; the eight non-`reviewLog` handlers additionally set
`lastModified` on both arms; `handleReviewLogOperation` instead sets
`createdAt` (derived from `op.timestamp`) and sets no `lastModified`
column.  Moreover, on any row a handler writes (inserts or updates), the
stored `seqNo` equals the allocated sequence number, the stored
`lastModified` — `createdAt` for `reviewLog` — equals `op.timestamp`, and
the stored `lastModifiedClient` equals `op.clientId`. -/
theorem handlers_set_metadata_amended :
    (∀ cols ∈ [cardInsertColumns, cardUpdateColumns,
        reviewLogDeletedInsertColumns, reviewLogDeletedUpdateColumns,
        cardContentInsertColumns, cardContentUpdateColumns,
        cardDeletedInsertColumns, cardDeletedUpdateColumns,
        cardBookmarkedInsertColumns, cardBookmarkedUpdateColumns,
        cardSuspendedInsertColumns, cardSuspendedUpdateColumns,
        deckInsertColumns, deckUpdateColumns,
        cardDecksInsertColumns, cardDecksUpdateColumns],
      "seqNo" ∈ cols ∧ "lastModified" ∈ cols ∧ "lastModifiedClient" ∈ cols) ∧
    ("seqNo" ∈ reviewLogInsertColumns ∧ "lastModifiedClient" ∈ reviewLogInsertColumns ∧
     "createdAt" ∈ reviewLogInsertColumns ∧ ¬ "lastModified" ∈ reviewLogInsertColumns) ∧
    (∀ (op : CardOperation) (db : DB) (s : Nat) (k : String) (r : CardRow),
      (handleCardOperation op db s).cards k = some r →
      db.cards k = some r ∨
        (r.seqNo = s ∧ r.lastModified = op.timestamp ∧
          r.lastModifiedClient = op.clientId)) ∧
    (∀ (op : ReviewLogOperation) (db : DB) (s : Nat) (k : String) (r : ReviewLogRow),
      (handleReviewLogOperation op db s).reviewLogs k = some r →
      db.reviewLogs k = some r ∨
        (r.seqNo = s ∧ r.createdAt = op.timestamp ∧
          r.lastModifiedClient = op.clientId)) ∧
    (∀ (op : ReviewLogDeletedOperation) (db : DB) (s : Nat) (k : String)
        (r : ReviewLogDeletedRow),
      (handleReviewLogDeletedOperation op db s).reviewLogDeleted k = some r →
      db.reviewLogDeleted k = some r ∨
        (r.seqNo = s ∧ r.lastModified = op.timestamp ∧
          r.lastModifiedClient = op.clientId)) ∧
    (∀ (op : CardContentOperation) (db : DB) (s : Nat) (k : String) (r : CardContentRow),
      (handleCardContentOperation op db s).cardContents k = some r →
      db.cardContents k = some r ∨
        (r.seqNo = s ∧ r.lastModified = op.timestamp ∧
          r.lastModifiedClient = op.clientId)) ∧
    (∀ (op : CardDeletedOperation) (db : DB) (s : Nat) (k : String) (r : CardDeletedRow),
      (handleCardDeletedOperation op db s).cardDeleted k = some r →
      db.cardDeleted k = some r ∨
        (r.seqNo = s ∧ r.lastModified = op.timestamp ∧
          r.lastModifiedClient = op.clientId)) ∧
    (∀ (op : CardBookmarkedOperation) (db : DB) (s : Nat) (k : String)
        (r : CardBookmarkedRow),
      (handleCardBookmarkedOperation op db s).cardBookmarked k = some r →
      db.cardBookmarked k = some r ∨
        (r.seqNo = s ∧ r.lastModified = op.timestamp ∧
          r.lastModifiedClient = op.clientId)) ∧
    (∀ (op : CardSuspendedOperation) (db : DB) (s : Nat) (k : String)
        (r : CardSuspendedRow),
      (handleCardSuspendedOperation op db s).cardSuspended k = some r →
      db.cardSuspended k = some r ∨
        (r.seqNo = s ∧ r.lastModified = op.timestamp ∧
          r.lastModifiedClient = op.clientId)) ∧
    (∀ (op : DeckOperation) (db : DB) (s : Nat) (k : String) (r : DeckRow),
      (handleDeckOperation op db s).decks k = some r →
      db.decks k = some r ∨
        (r.seqNo = s ∧ r.lastModified = op.timestamp ∧
          r.lastModifiedClient = op.clientId)) ∧
    (∀ (op : UpdateDeckCardOperation) (db : DB) (s : Nat) (k : String × String)
        (r : CardDeckRow),
      (handleUpdateDeckCardOperation op db s).cardDecks k = some r →
      db.cardDecks k = some r ∨
        (r.seqNo = s ∧ r.lastModified = op.timestamp ∧
          r.lastModifiedClient = op.clientId)) :=
  ⟨by decide, by decide, cardWrite_meta, reviewLogWrite_meta, reviewLogDeletedWrite_meta,
   cardContentWrite_meta, cardDeletedWrite_meta, cardBookmarkedWrite_meta,
   cardSuspendedWrite_meta, deckWrite_meta, cardDeckWrite_meta⟩

/-- Witness for the amended C3: the concrete card and review-log writes carry
the allocated sequence number, the operation's timestamp, and the client
id. -/
theorem handlers_set_metadata_amended_witness :
    (emptyDB.cards "c1" = some (cardInsertRow cardOpA 5) ∨
      ((cardInsertRow cardOpA 5).seqNo = 5 ∧
        (cardInsertRow cardOpA 5).lastModified = cardOpA.timestamp ∧
        (cardInsertRow cardOpA 5).lastModifiedClient = cardOpA.clientId)) ∧
    (emptyDB.reviewLogs "r1" = some (reviewLogInsertRow reviewLogOp1 4) ∨
      ((reviewLogInsertRow reviewLogOp1 4).seqNo = 4 ∧
        (reviewLogInsertRow reviewLogOp1 4).createdAt = reviewLogOp1.timestamp ∧
        (reviewLogInsertRow reviewLogOp1 4).lastModifiedClient = reviewLogOp1.clientId)) :=
  ⟨handlers_set_metadata_amended.2.2.1 cardOpA emptyDB 5 "c1" (cardInsertRow cardOpA 5) rfl,
   handlers_set_metadata_amended.2.2.2.1 reviewLogOp1 emptyDB 4 "r1"
     (reviewLogInsertRow reviewLogOp1 4) rfl⟩

/-- The database after applying `cardOpA` then `cardOpB` through
`handleClientOperation`. -/
def permDB12 : DB :=
  extractOk (applyOps [Operation.card cardOpA, Operation.card cardOpB] (userDB "u1" 1)) emptyDB

/-- The database after applying the same two operations in the other
order. -/
def permDB21 : DB :=
  extractOk (applyOps [Operation.card cardOpB, Operation.card cardOpA] (userDB "u1" 1)) emptyDB

/-- Counterexample to C6 as stated: permuting two card operations on the
same key changes the final stored row — the winner `cardOpB` is stamped
with `seqNo = 2` when it arrives second but `seqNo = 1` when it arrives
first, so the rows are not identical in the metadata column `seqNo`. -/
theorem order_independence_counterexample :
    applyOps [Operation.card cardOpA, Operation.card cardOpB] (userDB "u1" 1) =
      .ok permDB12 ∧
    applyOps [Operation.card cardOpB, Operation.card cardOpA] (userDB "u1" 1) =
      .ok permDB21 ∧
    permDB12.cards "c1" ≠ permDB21.cards "c1" := by
  refine ⟨rfl, rfl, ?_⟩
  decide

/-- All columns of a `cards` row except `seqNo`. -/
structure CardRowNS where
  userId : String
  due : Nat
  stability : Int
  difficulty : Int
  elapsed_days : Nat
  scheduled_days : Nat
  reps : Nat
  lapses : Nat
  state : Nat
  last_review : Option Nat
  lastModified : Nat
  lastModifiedClient : String
deriving DecidableEq, Repr

/-- Projection of a stored card row onto every column except `seqNo`. -/
def CardRow.exceptSeqNo (r : CardRow) : CardRowNS :=
  { userId := r.userId
    due := r.due
    stability := r.stability
    difficulty := r.difficulty
    elapsed_days := r.elapsed_days
    scheduled_days := r.scheduled_days
    reps := r.reps
    lapses := r.lapses
    state := r.state
    last_review := r.last_review
    lastModified := r.lastModified
    lastModifiedClient := r.lastModifiedClient }

lemma cardMergeStep_congr {cur cur' : Option CardRow} (o : CardOperation) (s s' : Nat)
    (h : cur.map CardRow.exceptSeqNo = cur'.map CardRow.exceptSeqNo) :
    (cardMergeStep o s cur).map CardRow.exceptSeqNo =
      (cardMergeStep o s' cur').map CardRow.exceptSeqNo := by
  cases cur with
  | none =>
    cases cur' with
    | none => rfl
    | some r' => simp at h
  | some r =>
    cases cur' with
    | none => simp at h
    | some r' =>
      simp only [Option.map_some', Option.some.injEq] at h
      have hlm : r.lastModified = r'.lastModified := by
        simpa [CardRow.exceptSeqNo] using congrArg CardRowNS.lastModified h
      have hlc : r.lastModifiedClient = r'.lastModifiedClient := by
        simpa [CardRow.exceptSeqNo] using congrArg CardRowNS.lastModifiedClient h
      have huid : r.userId = r'.userId := by
        simpa [CardRow.exceptSeqNo] using congrArg CardRowNS.userId h
      simp only [cardMergeStep]
      rw [hlm, hlc]
      cases hw : lwwWins o.timestamp o.clientId r'.lastModified r'.lastModifiedClient with
      | false => simpa [hw] using h
      | true => simp [hw, cardUpdateRow, CardRow.exceptSeqNo, huid]

lemma lwwWins_of_not {t1 t2 : Nat} {c1 c2 : String}
    (h : lwwWins t2 c2 t1 c1 = false) (hne : ¬ (t1 = t2 ∧ c1 = c2)) :
    lwwWins t1 c1 t2 c2 = true := by
  cases hx : lwwWins t1 c1 t2 c2 with
  | true => rfl
  | false => exact absurd (lwwWins_total h hx) hne

lemma cardMergeStep_comm (x y : CardOperation) (z : Option CardRow)
    (hne : (x.timestamp, x.clientId) ≠ (y.timestamp, y.clientId))
    (hux : x.userId = y.userId) :
    cardMergeStep y 0 (cardMergeStep x 0 z) = cardMergeStep x 0 (cardMergeStep y 0 z) := by
  have hnepair : ¬ (x.timestamp = y.timestamp ∧ x.clientId = y.clientId) := by
    rintro ⟨h1, h2⟩
    exact hne (by rw [h1, h2])
  have hnepair' : ¬ (y.timestamp = x.timestamp ∧ y.clientId = x.clientId) := by
    rintro ⟨h1, h2⟩
    exact hne (by rw [h1, h2])
  cases z with
  | none =>
    cases hw1 : lwwWins y.timestamp y.clientId x.timestamp x.clientId with
    | true =>
      have hw2 : lwwWins x.timestamp x.clientId y.timestamp y.clientId = false :=
        lwwWins_asymm hw1
      simp [cardMergeStep, cardInsertRow, cardUpdateRow, hw1, hw2, hux]
    | false =>
      have hw2 : lwwWins x.timestamp x.clientId y.timestamp y.clientId = true :=
        lwwWins_of_not hw1 hnepair
      simp [cardMergeStep, cardInsertRow, cardUpdateRow, hw1, hw2, hux]
  | some r =>
    cases hwx : lwwWins x.timestamp x.clientId r.lastModified r.lastModifiedClient with
    | true =>
      cases hw1 : lwwWins y.timestamp y.clientId x.timestamp x.clientId with
      | true =>
        have hwy : lwwWins y.timestamp y.clientId r.lastModified r.lastModifiedClient = true :=
          lwwWins_trans hwx hw1
        have hw2 : lwwWins x.timestamp x.clientId y.timestamp y.clientId = false :=
          lwwWins_asymm hw1
        simp [cardMergeStep, cardUpdateRow, hwx, hwy, hw1, hw2]
      | false =>
        have hw2 : lwwWins x.timestamp x.clientId y.timestamp y.clientId = true :=
          lwwWins_of_not hw1 hnepair
        cases hwy : lwwWins y.timestamp y.clientId r.lastModified r.lastModifiedClient with
        | true => simp [cardMergeStep, cardUpdateRow, hwx, hwy, hw1, hw2]
        | false => simp [cardMergeStep, cardUpdateRow, hwx, hwy, hw1, hw2]
    | false =>
      cases hwy : lwwWins y.timestamp y.clientId r.lastModified r.lastModifiedClient with
      | true =>
        have hw2 : lwwWins x.timestamp x.clientId y.timestamp y.clientId = false := by
          cases hx2 : lwwWins x.timestamp x.clientId y.timestamp y.clientId with
          | false => rfl
          | true => exact absurd (lwwWins_trans hwy hx2) (by simp [hwx])
        simp [cardMergeStep, cardUpdateRow, hwx, hwy, hw2]
      | false =>
        simp [cardMergeStep, hwx, hwy]

lemma cardMergeStep_swap (x y : CardOperation) (z : Option CardRow)
    (h : x = y ∨ (x.timestamp, x.clientId) ≠ (y.timestamp, y.clientId))
    (hux : x.userId = y.userId) :
    cardMergeStep y 0 (cardMergeStep x 0 z) = cardMergeStep x 0 (cardMergeStep y 0 z) := by
  rcases h with rfl | hne
  · rfl
  · exact cardMergeStep_comm x y z hne hux

lemma foldl_strip_congr : ∀ (t : List CardOperation) (a b : Option CardRow),
    a.map CardRow.exceptSeqNo = b.map CardRow.exceptSeqNo →
    (List.foldl (fun cur o => cardMergeStep o 0 cur) a t).map CardRow.exceptSeqNo =
      (List.foldl (fun cur o => cardMergeStep o 0 cur) b t).map CardRow.exceptSeqNo
  | [], _, _, h => h
  | o :: t, a, b, h => by
    rw [List.foldl_cons, List.foldl_cons]
    exact foldl_strip_congr t _ _ (cardMergeStep_congr o 0 0 h)

lemma applyCardOps_strip (key u : String) (ops : List CardOperation) :
    ∀ (db : DB) (s : Nat), db.users u = some s →
      (∀ o ∈ ops, o.userId = u ∧ o.payload.id = key) →
      ∃ db', applyOps (ops.map Operation.card) db = .ok db' ∧
        db'.users u = some (s + ops.length) ∧
        (db'.cards key).map CardRow.exceptSeqNo =
          (List.foldl (fun cur o => cardMergeStep o 0 cur) (db.cards key) ops).map
            CardRow.exceptSeqNo := by
  induction ops with
  | nil =>
    intro db s hu _
    exact ⟨db, rfl, by simpa using hu, rfl⟩
  | cons o t ih =>
    intro db s hu hops
    have ho := hops o (List.mem_cons_self o t)
    have hu' : db.users o.userId = some s := by
      rw [ho.1]
      exact hu
    have hco : handleClientOperation (Operation.card o) db =
        .ok (handleCardOperation o { db with users := setTable db.users o.userId (s + 1) }
          s) := by
      rw [handleClientOperation_eq]
      simp only [Operation.userId, hu']
      rfl
    have hu1 : (handleCardOperation o
        { db with users := setTable db.users o.userId (s + 1) } s).users u = some (s + 1) := by
      rw [(handleCard_frame o { db with users := setTable db.users o.userId (s + 1) } s).1]
      show setTable db.users o.userId (s + 1) u = some (s + 1)
      rw [ho.1]
      exact setTable_self _ _ _
    have hops' : ∀ x ∈ t, x.userId = u ∧ x.payload.id = key := fun x hx =>
      hops x (List.mem_cons_of_mem o hx)
    obtain ⟨db', he, hus, hstrip⟩ := ih
      (handleCardOperation o { db with users := setTable db.users o.userId (s + 1) } s)
      (s + 1) hu1 hops'
    have hkey : (handleCardOperation o
        { db with users := setTable db.users o.userId (s + 1) } s).cards key =
        cardMergeStep o s (db.cards key) := by
      rw [handleCard_lookup, ho.2, if_pos rfl]
    refine ⟨db', ?_, ?_, ?_⟩
    · show applyOps (Operation.card o :: t.map Operation.card) db = .ok db'
      simp only [applyOps, hco]
      exact he
    · rw [hus]
      congr 1
      simp only [List.length_cons]
      omega
    · rw [hstrip, hkey, List.foldl_cons]
      exact foldl_strip_congr t _ _ (cardMergeStep_congr o s 0 rfl)

/-- C6 (amended): for card operations (a representative LWW register) on a
single key, all from one user, whose `(timestamp, clientId)` pairs are
pairwise distinct, applying any permutation of the sequence through
`handleClientOperation` yields a final stored row that is identical in every
column except `seqNo` (`seqNo` records arrival order and is the one column
the counterexample shows to be order-dependent). -/
theorem order_independence_amended (ops1 ops2 : List CardOperation) (u key : String)
    (db : DB) (s : Nat) (db1 db2 : DB)
    (hperm : ops1.Perm ops2)
    (hu : db.users u = some s)
    (hops : ∀ o ∈ ops1, o.userId = u ∧ o.payload.id = key)
    (hpair : ops1.Pairwise (fun a b =>
      (a.timestamp, a.clientId) ≠ (b.timestamp, b.clientId)))
    (h1 : applyOps (ops1.map Operation.card) db = .ok db1)
    (h2 : applyOps (ops2.map Operation.card) db = .ok db2) :
    (db1.cards key).map CardRow.exceptSeqNo = (db2.cards key).map CardRow.exceptSeqNo := by
  have hops2 : ∀ o ∈ ops2, o.userId = u ∧ o.payload.id = key := fun o ho =>
    hops o (hperm.mem_iff.mpr ho)
  obtain ⟨db1', he1, _, hs1⟩ := applyCardOps_strip key u ops1 db s hu hops
  obtain ⟨db2', he2, _, hs2⟩ := applyCardOps_strip key u ops2 db s hu hops2
  have e1 : db1' = db1 := Except.ok.inj (he1.symm.trans h1)
  have e2 : db2' = db2 := Except.ok.inj (he2.symm.trans h2)
  have hcomm : ∀ x ∈ ops1, ∀ y ∈ ops1, ∀ z,
      cardMergeStep y 0 (cardMergeStep x 0 z) = cardMergeStep x 0 (cardMergeStep y 0 z) := by
    intro x hx y hy z
    rcases eq_or_ne x y with rfl | hxy
    · rfl
    · have hsym : Symmetric (fun a b : CardOperation =>
          (a.timestamp, a.clientId) ≠ (b.timestamp, b.clientId)) :=
        fun _ _ hab h => hab h.symm
      exact cardMergeStep_swap x y z
        (Or.inr (List.Pairwise.forall hsym hpair hx hy hxy))
        (((hops x hx).1).trans ((hops y hy).1).symm)
  have hfold : List.foldl (fun cur o => cardMergeStep o 0 cur) (db.cards key) ops1 =
      List.foldl (fun cur o => cardMergeStep o 0 cur) (db.cards key) ops2 :=
    hperm.foldl_eq' hcomm (db.cards key)
  rw [← e1, ← e2]
  rw [hs1, hs2, hfold]

/-- Witness for the amended C6: the two concrete orders of `cardOpA` and
`cardOpB` agree on every column of the final row except `seqNo`. -/
theorem order_independence_amended_witness :
    (permDB12.cards "c1").map CardRow.exceptSeqNo =
      (permDB21.cards "c1").map CardRow.exceptSeqNo :=
  order_independence_amended [cardOpA, cardOpB] [cardOpB, cardOpA] "u1" "c1"
    (userDB "u1" 1) 1 permDB12 permDB21 (List.Perm.swap cardOpB cardOpA [])
    rfl (by decide) (by decide) rfl rfl
